import Mathlib

/-!
Verification of the gv100ad crate's core: the composite key model
(src/model/land.rs, regierungsbezirk.rs, region.rs, kreis.rs,
gemeindeverband.rs, gemeinde.rs), the key string codec, the in-memory
database with its range-query engine (src/db.rs), the fixed-width field
reader and the date parsing of src/parser.rs.

Rust machine integers (u8, u16, u64) are modelled as Nat; no arithmetic is
performed on them in the modelled code, so wrapping never arises, but the
range-query endpoints use the numeric bounds u8::MAX = 255 and
u16::MAX = 65535, so boundedness of key components is carried as explicit
hypotheses where range correctness depends on it.  Rust strings are
modelled as lists of Unicode scalar values (List Char); String::len (a
byte count) is modelled by summing the UTF-8 size of each character, and
byte-index slicing is a partial operation whose failure models the Rust
panic on a non-boundary index.  BTreeMap is modelled as an association
list sorted strictly by the key comparator; HashMap as an association
list with no duplicate keys.
-/

namespace GV100AD

/-- Mirrors struct LandSchluessel (src/model/land.rs, line 11): a single
u8 component. -/
structure LandSchluessel where
  land : Nat
  deriving DecidableEq, Repr

/-- Mirrors LandSchluessel::new (src/model/land.rs, line 16). -/
def LandSchluessel.new (land : Nat) : LandSchluessel := ⟨land⟩

/-- Mirrors struct RegierungsbezirkSchluessel
(src/model/regierungsbezirk.rs, line 16): parent Land key plus a u8. -/
structure RegierungsbezirkSchluessel where
  land : LandSchluessel
  regierungsbezirk : Nat
  deriving DecidableEq, Repr

/-- Mirrors RegierungsbezirkSchluessel::new
(src/model/regierungsbezirk.rs, line 22). -/
def RegierungsbezirkSchluessel.new (land : LandSchluessel)
    (regierungsbezirk : Nat) : RegierungsbezirkSchluessel :=
  ⟨land, regierungsbezirk⟩

/-- Mirrors struct RegionSchluessel (src/model/region.rs, line 17):
parent Regierungsbezirk key plus a u8. -/
structure RegionSchluessel where
  regierungsbezirk : RegierungsbezirkSchluessel
  region : Nat
  deriving DecidableEq, Repr

/-- Mirrors RegionSchluessel::new (src/model/region.rs, line 23). -/
def RegionSchluessel.new (regierungsbezirk : RegierungsbezirkSchluessel)
    (region : Nat) : RegionSchluessel :=
  ⟨regierungsbezirk, region⟩

/-- Mirrors struct KreisSchluessel (src/model/kreis.rs, line 14):
parent Regierungsbezirk key plus a u8. -/
structure KreisSchluessel where
  regierungsbezirk : RegierungsbezirkSchluessel
  kreis : Nat
  deriving DecidableEq, Repr

/-- Mirrors KreisSchluessel::new (src/model/kreis.rs, line 20). -/
def KreisSchluessel.new (regierungsbezirk : RegierungsbezirkSchluessel)
    (kreis : Nat) : KreisSchluessel :=
  ⟨regierungsbezirk, kreis⟩

/-- Mirrors KreisSchluessel::new_land (src/model/kreis.rs, line 29):
builds a Kreis key from a Land key, setting the Regierungsbezirk part
to 0. -/
def KreisSchluessel.new_land (land : LandSchluessel) (kreis : Nat) :
    KreisSchluessel :=
  ⟨RegierungsbezirkSchluessel.new land 0, kreis⟩

/-- Mirrors struct GemeindeverbandSchluessel
(src/model/gemeindeverband.rs, line 36): parent Kreis key plus a u16. -/
structure GemeindeverbandSchluessel where
  kreis : KreisSchluessel
  gemeindeverband : Nat
  deriving DecidableEq, Repr

/-- Mirrors GemeindeverbandSchluessel::new
(src/model/gemeindeverband.rs, line 42). -/
def GemeindeverbandSchluessel.new (kreis : KreisSchluessel)
    (gemeindeverband : Nat) : GemeindeverbandSchluessel :=
  ⟨kreis, gemeindeverband⟩

/-- Mirrors struct GemeindeSchluessel (src/model/gemeinde.rs, line 74):
parent Gemeindeverband key plus a u16. -/
structure GemeindeSchluessel where
  gemeindeverband : GemeindeverbandSchluessel
  gemeinde : Nat
  deriving DecidableEq, Repr

/-- Mirrors GemeindeSchluessel::new (src/model/gemeinde.rs, line 80). -/
def GemeindeSchluessel.new (gemeindeverband : GemeindeverbandSchluessel)
    (gemeinde : Nat) : GemeindeSchluessel :=
  ⟨gemeindeverband, gemeinde⟩

/-- Mirrors struct RegionalSchluessel (src/model/gemeinde.rs, line 19):
the compact alternate municipality key, a Kreis key plus the u16
municipality number, omitting the Gemeindeverband component. -/
structure RegionalSchluessel where
  kreis : KreisSchluessel
  gemeinde : Nat
  deriving DecidableEq, Repr

/-- Mirrors RegionalSchluessel::new (src/model/gemeinde.rs, line 25). -/
def RegionalSchluessel.new (kreis : KreisSchluessel) (gemeinde : Nat) :
    RegionalSchluessel :=
  ⟨kreis, gemeinde⟩

/-- Mirrors GemeindeSchluessel::from_regional_schluessel
(src/model/gemeinde.rs, line 87). -/
def GemeindeSchluessel.from_regional_schluessel
    (regional_schluessel : RegionalSchluessel) (gemeindeverband : Nat) :
    GemeindeSchluessel :=
  ⟨⟨regional_schluessel.kreis, gemeindeverband⟩, regional_schluessel.gemeinde⟩

/-- Mirrors RegionalSchluessel::to_gemeinde_schluessel
(src/model/gemeinde.rs, line 29). -/
def RegionalSchluessel.to_gemeinde_schluessel (self : RegionalSchluessel)
    (gemeindeverband : Nat) : GemeindeSchluessel :=
  GemeindeSchluessel.from_regional_schluessel self gemeindeverband

/-! Key projections: the From conversions that drop trailing components.
Each mirrors the listed From impl in the model sources. -/

/-- Mirrors From of RegierungsbezirkSchluessel for LandSchluessel
(src/model/regierungsbezirk.rs, line 51). -/
def RegierungsbezirkSchluessel.toLand (k : RegierungsbezirkSchluessel) :
    LandSchluessel :=
  k.land

/-- Mirrors From of RegionSchluessel for RegierungsbezirkSchluessel
(src/model/region.rs, line 52). -/
def RegionSchluessel.toRegierungsbezirk (k : RegionSchluessel) :
    RegierungsbezirkSchluessel :=
  k.regierungsbezirk

/-- Mirrors From of RegionSchluessel for LandSchluessel
(src/model/region.rs, line 58). -/
def RegionSchluessel.toLand (k : RegionSchluessel) : LandSchluessel :=
  k.regierungsbezirk.toLand

/-- Mirrors From of KreisSchluessel for RegierungsbezirkSchluessel
(src/model/kreis.rs, line 58). -/
def KreisSchluessel.toRegierungsbezirk (k : KreisSchluessel) :
    RegierungsbezirkSchluessel :=
  k.regierungsbezirk

/-- Mirrors From of KreisSchluessel for LandSchluessel
(src/model/kreis.rs, line 64). -/
def KreisSchluessel.toLand (k : KreisSchluessel) : LandSchluessel :=
  k.regierungsbezirk.toLand

/-- Mirrors From of GemeindeverbandSchluessel for KreisSchluessel
(src/model/gemeindeverband.rs, line 71). -/
def GemeindeverbandSchluessel.toKreis (k : GemeindeverbandSchluessel) :
    KreisSchluessel :=
  k.kreis

/-- Mirrors From of GemeindeverbandSchluessel for
RegierungsbezirkSchluessel (src/model/gemeindeverband.rs, line 77). -/
def GemeindeverbandSchluessel.toRegierungsbezirk
    (k : GemeindeverbandSchluessel) : RegierungsbezirkSchluessel :=
  k.kreis.toRegierungsbezirk

/-- Mirrors From of GemeindeverbandSchluessel for LandSchluessel
(src/model/gemeindeverband.rs, line 83). -/
def GemeindeverbandSchluessel.toLand (k : GemeindeverbandSchluessel) :
    LandSchluessel :=
  k.kreis.toLand

/-- Mirrors From of GemeindeSchluessel for GemeindeverbandSchluessel
(src/model/gemeinde.rs, line 122). -/
def GemeindeSchluessel.toGemeindeverband (k : GemeindeSchluessel) :
    GemeindeverbandSchluessel :=
  k.gemeindeverband

/-- Mirrors From of GemeindeSchluessel for KreisSchluessel
(src/model/gemeinde.rs, line 128). -/
def GemeindeSchluessel.toKreis (k : GemeindeSchluessel) : KreisSchluessel :=
  k.gemeindeverband.toKreis

/-- Mirrors From of GemeindeSchluessel for RegierungsbezirkSchluessel
(src/model/gemeinde.rs, line 134). -/
def GemeindeSchluessel.toRegierungsbezirk (k : GemeindeSchluessel) :
    RegierungsbezirkSchluessel :=
  k.gemeindeverband.toRegierungsbezirk

/-- Mirrors From of GemeindeSchluessel for LandSchluessel
(src/model/gemeinde.rs, line 140). -/
def GemeindeSchluessel.toLand (k : GemeindeSchluessel) : LandSchluessel :=
  k.gemeindeverband.toLand

/-- Mirrors From of GemeindeSchluessel for RegionalSchluessel
(src/model/gemeinde.rs, line 146): drop the Gemeindeverband component,
keep Kreis and Gemeinde. -/
def GemeindeSchluessel.toRegional (k : GemeindeSchluessel) :
    RegionalSchluessel :=
  ⟨k.gemeindeverband.toKreis, k.gemeinde⟩

/-- Mirrors From of RegionalSchluessel for KreisSchluessel
(src/model/gemeinde.rs, line 55). -/
def RegionalSchluessel.toKreis (k : RegionalSchluessel) : KreisSchluessel :=
  k.kreis

/-- Mirrors From of RegionalSchluessel for LandSchluessel
(src/model/gemeinde.rs, line 67). -/
def RegionalSchluessel.toLand (k : RegionalSchluessel) : LandSchluessel :=
  k.kreis.toLand

/-! Key ordering.  Every key type derives Ord in Rust, whose derived
instance compares fields lexicographically in declaration order; nested
struct fields recurse into their own derived Ord.  The comparators below
spell that out with Ordering.then, exactly as the derive expands. -/

/-- Derived Ord of LandSchluessel: compare the single u8 field. -/
def LandSchluessel.cmp (a b : LandSchluessel) : Ordering :=
  compare a.land b.land

/-- Derived Ord of RegierungsbezirkSchluessel: land, then
regierungsbezirk. -/
def RegierungsbezirkSchluessel.cmp (a b : RegierungsbezirkSchluessel) :
    Ordering :=
  (a.land.cmp b.land).then (compare a.regierungsbezirk b.regierungsbezirk)

/-- Derived Ord of RegionSchluessel: regierungsbezirk, then region. -/
def RegionSchluessel.cmp (a b : RegionSchluessel) : Ordering :=
  (a.regierungsbezirk.cmp b.regierungsbezirk).then (compare a.region b.region)

/-- Derived Ord of KreisSchluessel: regierungsbezirk, then kreis. -/
def KreisSchluessel.cmp (a b : KreisSchluessel) : Ordering :=
  (a.regierungsbezirk.cmp b.regierungsbezirk).then (compare a.kreis b.kreis)

/-- Derived Ord of GemeindeverbandSchluessel: kreis, then
gemeindeverband. -/
def GemeindeverbandSchluessel.cmp (a b : GemeindeverbandSchluessel) :
    Ordering :=
  (a.kreis.cmp b.kreis).then (compare a.gemeindeverband b.gemeindeverband)

/-- Derived Ord of GemeindeSchluessel: gemeindeverband, then gemeinde. -/
def GemeindeSchluessel.cmp (a b : GemeindeSchluessel) : Ordering :=
  (a.gemeindeverband.cmp b.gemeindeverband).then (compare a.gemeinde b.gemeinde)

/-- Derived Ord of RegionalSchluessel: kreis, then gemeinde. -/
def RegionalSchluessel.cmp (a b : RegionalSchluessel) : Ordering :=
  (a.kreis.cmp b.kreis).then (compare a.gemeinde b.gemeinde)

/-! Model of std::collections::BTreeMap: an association list sorted
strictly ascending by the comparator.  Insertion keeps the invariant and
replaces an equal key in place; get finds the entry whose key compares
equal; range over an inclusive interval keeps exactly the entries inside
it, in map order. -/

/-- Insert into a sorted association list, replacing an existing entry
whose key compares equal (BTreeMap::insert semantics). -/
def btInsert {K V : Type} (cmp : K → K → Ordering) (k : K) (v : V) :
    List (K × V) → List (K × V)
  | [] => [(k, v)]
  | (k', v') :: rest =>
    match cmp k k' with
    | .lt => (k, v) :: (k', v') :: rest
    | .eq => (k, v) :: rest
    | .gt => (k', v') :: btInsert cmp k v rest

/-- Point lookup by comparator equality (BTreeMap::get semantics). -/
def btGet {K V : Type} (cmp : K → K → Ordering) (k : K) :
    List (K × V) → Option V
  | [] => none
  | (k', v') :: rest =>
    match cmp k k' with
    | .eq => some v'
    | _ => btGet cmp k rest

/-- Inclusive range scan (BTreeMap::range(lo..=hi) semantics): the
entries with lo ≤ key ≤ hi, in map order. -/
def btRange {K V : Type} (cmp : K → K → Ordering) (lo hi : K)
    (l : List (K × V)) : List (K × V) :=
  l.filter (fun kv => (cmp lo kv.1).isLE && (cmp kv.1 hi).isLE)

/-- Sortedness invariant of the BTreeMap model: keys strictly ascend. -/
def btWF {K V : Type} (cmp : K → K → Ordering) (l : List (K × V)) : Prop :=
  l.Pairwise (fun a b => cmp a.1 b.1 = .lt)

/-- Number of entries whose key compares equal to k. -/
def btCountKey {K V : Type} (cmp : K → K → Ordering) (k : K)
    (l : List (K × V)) : Nat :=
  (l.filter (fun kv => decide (cmp k kv.1 = .eq))).length

/-- Model of std::collections::HashMap insert: replace any entry with an
equal key; list order carries no meaning. -/
def hmInsert {K V : Type} [DecidableEq K] (k : K) (v : V)
    (l : List (K × V)) : List (K × V) :=
  (k, v) :: l.filter (fun kv => decide (kv.1 ≠ k))

/-- Model of std::collections::HashMap get. -/
def hmGet {K V : Type} [DecidableEq K] (k : K) (l : List (K × V)) :
    Option V :=
  (l.find? (fun kv => decide (kv.1 = k))).map (·.2)

/-! Record payloads (the Daten structs of src/model).  Rust Strings are
List Char, chrono::NaiveDate is a year/month/day triple (year is i32 in
chrono, hence Int). -/

/-- Model of chrono::NaiveDate as stored in the records. -/
structure NaiveDate where
  year : Int
  month : Nat
  day : Nat
  deriving DecidableEq, Repr

/-- Mirrors struct LandDaten (src/model/land.rs, line 43). -/
structure LandDaten where
  gebietsstand : NaiveDate
  schluessel : LandSchluessel
  name : List Char
  sitz_regierung : List Char
  deriving DecidableEq, Repr

/-- Mirrors struct RegierungsbezirkDaten
(src/model/regierungsbezirk.rs, line 59). -/
structure RegierungsbezirkDaten where
  gebietsstand : NaiveDate
  schluessel : RegierungsbezirkSchluessel
  name : List Char
  sitz_verwaltung : List Char
  deriving DecidableEq, Repr

/-- Mirrors struct RegionDaten (src/model/region.rs, line 67). -/
structure RegionDaten where
  gebietsstand : NaiveDate
  schluessel : RegionSchluessel
  name : List Char
  sitz_verwaltung : List Char
  deriving DecidableEq, Repr

/-- Mirrors enum KreisTextkennzeichen (src/model/kreis.rs, line 90). -/
inductive KreisTextkennzeichen where
  | KreisfreieStadt
  | Stadtkreis
  | Kreis
  | Landkreis
  | Regionalverband
  deriving DecidableEq, Repr

/-- Mirrors struct KreisDaten (src/model/kreis.rs, line 72). -/
structure KreisDaten where
  gebietsstand : NaiveDate
  schluessel : KreisSchluessel
  name : List Char
  sitz_verwaltung : List Char
  textkennzeichen : KreisTextkennzeichen
  deriving DecidableEq, Repr

/-- Mirrors enum GemeindeverbandTextkennzeichen
(src/model/gemeindeverband.rs, line 90). -/
inductive GemeindeverbandTextkennzeichen where
  | VerbandsfreieGemeinde
  | Amt
  | Samtgemeinde
  | Verbandsgemeinde
  | Verwaltungsgemeinschaft
  | Kirchspielslandgemeinde
  | Verwaltungsverband
  | VGTraegermodell
  | ErfuellendeGemeinde
  deriving DecidableEq, Repr

/-- Mirrors struct GemeindeverbandDaten
(src/model/gemeindeverband.rs, line 18). -/
structure GemeindeverbandDaten where
  gebietsstand : NaiveDate
  schluessel : GemeindeverbandSchluessel
  name : List Char
  sitz_verwaltung : Option (List Char)
  textkennzeichen : GemeindeverbandTextkennzeichen
  deriving DecidableEq, Repr

/-- Mirrors enum GemeindeTextkennzeichen (src/model/gemeinde.rs,
line 245). -/
inductive GemeindeTextkennzeichen where
  | Markt
  | KreisfreieStadt
  | Stadtkreis
  | Stadt
  | KreisangehoerigeGemeinde
  | GemeindefreiesGebietBewohnt
  | GemeindefreiesGebietUnbewohnt
  | GrosseKreisstadt
  deriving DecidableEq, Repr

/-- Mirrors struct Gerichtbarkeit (src/model/gemeinde.rs, line 202). -/
structure Gerichtbarkeit where
  oberlandesgericht : List Char
  landgericht : List Char
  amtsgericht : List Char
  deriving DecidableEq, Repr

/-- Mirrors enum Bundestagswahlkreise (src/model/gemeinde.rs,
line 222). -/
inductive Bundestagswahlkreise where
  | Single (n : Nat)
  | Range (von bis : Nat)
  deriving DecidableEq, Repr

/-- Mirrors struct GemeindeDaten (src/model/gemeinde.rs, line 157). -/
structure GemeindeDaten where
  gebietsstand : NaiveDate
  schluessel : GemeindeSchluessel
  name : List Char
  textkennzeichen : GemeindeTextkennzeichen
  area : Nat
  population_total : Nat
  population_male : Nat
  plz : List Char
  plz_unambiguous : Bool
  finanzamtbezirk : Option Nat
  gerichtbarkeit : Option Gerichtbarkeit
  arbeitsargenturbezirk : Option Nat
  bundestagswahlkreise : Option Bundestagswahlkreise
  deriving DecidableEq, Repr

/-- Mirrors GemeindeDaten::regional_schluessel (src/model/gemeinde.rs,
line 195). -/
def GemeindeDaten.regional_schluessel (g : GemeindeDaten) :
    RegionalSchluessel :=
  g.schluessel.toRegional

/-- Mirrors enum Datensatz (src/model/datensatz.rs, line 14). -/
inductive Datensatz where
  | Land (land : LandDaten)
  | Regierungsbezirk (regierungsbezirk : RegierungsbezirkDaten)
  | Region (region : RegionDaten)
  | Kreis (kreis : KreisDaten)
  | Gemeindeverband (gemeindeverband : GemeindeverbandDaten)
  | Gemeinde (gemeinde : GemeindeDaten)
  deriving DecidableEq, Repr

/-! The database (src/db.rs): one sorted map per entity kind plus the
secondary HashMap from RegionalSchluessel to the Gemeindeverband id. -/

/-- Mirrors struct Database (src/db.rs, line 27). -/
structure Database where
  laender : List (LandSchluessel × LandDaten)
  regierungsbezirke : List (RegierungsbezirkSchluessel × RegierungsbezirkDaten)
  regionen : List (RegionSchluessel × RegionDaten)
  kreise : List (KreisSchluessel × KreisDaten)
  gemeindeverbaende : List (GemeindeverbandSchluessel × GemeindeverbandDaten)
  gemeinden : List (GemeindeSchluessel × GemeindeDaten)
  gemeindeverband_schluessel : List (RegionalSchluessel × Nat)
  deriving DecidableEq, Repr

/-- Mirrors Database::default (derived Default, src/db.rs, line 26):
every map empty. -/
def Database.empty : Database :=
  ⟨[], [], [], [], [], [], []⟩

/-- Mirrors Database::insert (src/db.rs, lines 71-98).  A Gemeinde
record also records its RegionalSchluessel projection in the secondary
index, mapped to its Gemeindeverband id. -/
def Database.insert (db : Database) (datensatz : Datensatz) : Database :=
  match datensatz with
  | .Land land =>
    { db with laender := btInsert LandSchluessel.cmp land.schluessel land db.laender }
  | .Regierungsbezirk regierungsbezirk =>
    { db with regierungsbezirke := btInsert RegierungsbezirkSchluessel.cmp regierungsbezirk.schluessel regierungsbezirk db.regierungsbezirke }
  | .Region region =>
    { db with regionen := btInsert RegionSchluessel.cmp region.schluessel region db.regionen }
  | .Kreis kreis =>
    { db with kreise := btInsert KreisSchluessel.cmp kreis.schluessel kreis db.kreise }
  | .Gemeindeverband gemeindeverband =>
    { db with gemeindeverbaende := btInsert GemeindeverbandSchluessel.cmp gemeindeverband.schluessel gemeindeverband db.gemeindeverbaende }
  | .Gemeinde gemeinde =>
    { db with
      gemeindeverband_schluessel := hmInsert gemeinde.schluessel.toRegional gemeinde.schluessel.gemeindeverband.gemeindeverband db.gemeindeverband_schluessel
      gemeinden := btInsert GemeindeSchluessel.cmp gemeinde.schluessel gemeinde db.gemeinden }

/-- Mirrors the loading loop of Database::from_parser (src/db.rs,
lines 61-69): fold the record sequence into an initially empty
database. -/
def Database.ofList (rs : List Datensatz) : Database :=
  rs.foldl Database.insert Database.empty

/-- Mirrors Database::regional_to_gemeinde_schluessel (src/db.rs,
lines 100-106). -/
def Database.regional_to_gemeinde_schluessel (db : Database)
    (regional_schluessel : RegionalSchluessel) : Option GemeindeSchluessel :=
  (hmGet regional_schluessel db.gemeindeverband_schluessel).map
    (fun gemeindeverband =>
      regional_schluessel.to_gemeinde_schluessel gemeindeverband)

/-! Point lookups: one function per Lookup impl of src/db.rs.  A lookup
with a finer key first projects the key up with the corresponding From
conversion (key.into() in the source). -/

/-- Mirrors Lookup of LandSchluessel for LandDaten (src/db.rs, line 261). -/
def Database.getLandByLand (db : Database) (key : LandSchluessel) :
    Option LandDaten :=
  btGet LandSchluessel.cmp key db.laender

/-- Mirrors Lookup of RegierungsbezirkSchluessel for LandDaten
(src/db.rs, line 267). -/
def Database.getLandByRegierungsbezirk (db : Database)
    (key : RegierungsbezirkSchluessel) : Option LandDaten :=
  btGet LandSchluessel.cmp key.toLand db.laender

/-- Mirrors Lookup of RegionSchluessel for LandDaten (src/db.rs,
line 273). -/
def Database.getLandByRegion (db : Database) (key : RegionSchluessel) :
    Option LandDaten :=
  btGet LandSchluessel.cmp key.toLand db.laender

/-- Mirrors Lookup of KreisSchluessel for LandDaten (src/db.rs,
line 279). -/
def Database.getLandByKreis (db : Database) (key : KreisSchluessel) :
    Option LandDaten :=
  btGet LandSchluessel.cmp key.toLand db.laender

/-- Mirrors Lookup of GemeindeverbandSchluessel for LandDaten
(src/db.rs, line 285). -/
def Database.getLandByGemeindeverband (db : Database)
    (key : GemeindeverbandSchluessel) : Option LandDaten :=
  btGet LandSchluessel.cmp key.toLand db.laender

/-- Mirrors Lookup of GemeindeSchluessel for LandDaten (src/db.rs,
line 291). -/
def Database.getLandByGemeinde (db : Database) (key : GemeindeSchluessel) :
    Option LandDaten :=
  btGet LandSchluessel.cmp key.toLand db.laender

/-- Mirrors Lookup of GemeindeSchluessel for GemeindeDaten (src/db.rs,
line 365). -/
def Database.getGemeindeByGemeinde (db : Database)
    (key : GemeindeSchluessel) : Option GemeindeDaten :=
  btGet GemeindeSchluessel.cmp key db.gemeinden

/-- Mirrors Lookup of RegionalSchluessel for GemeindeDaten (src/db.rs,
lines 371-376): resolve the compact key through the secondary index,
then look up the canonical key. -/
def Database.getGemeindeByRegional (db : Database)
    (key : RegionalSchluessel) : Option GemeindeDaten :=
  (db.regional_to_gemeinde_schluessel key).bind
    (fun k => btGet GemeindeSchluessel.cmp k db.gemeinden)

/-- Mirrors Lookup of RegierungsbezirkSchluessel for
RegierungsbezirkDaten (src/db.rs, line 297). -/
def Database.getRegierungsbezirkByRegierungsbezirk (db : Database)
    (key : RegierungsbezirkSchluessel) : Option RegierungsbezirkDaten :=
  btGet RegierungsbezirkSchluessel.cmp key db.regierungsbezirke

/-- Mirrors Lookup of RegionSchluessel for RegionDaten (src/db.rs,
line 327). -/
def Database.getRegionByRegion (db : Database) (key : RegionSchluessel) :
    Option RegionDaten :=
  btGet RegionSchluessel.cmp key db.regionen

/-- Mirrors Lookup of KreisSchluessel for KreisDaten (src/db.rs,
line 333). -/
def Database.getKreisByKreis (db : Database) (key : KreisSchluessel) :
    Option KreisDaten :=
  btGet KreisSchluessel.cmp key db.kreise

/-- Mirrors Lookup of GemeindeverbandSchluessel for GemeindeverbandDaten
(src/db.rs, line 353). -/
def Database.getGemeindeverbandByGemeindeverband (db : Database)
    (key : GemeindeverbandSchluessel) : Option GemeindeverbandDaten :=
  btGet GemeindeverbandSchluessel.cmp key db.gemeindeverbaende

/-! IntoRangeKey: the closed range endpoints of src/db.rs, one function
per impl, modelled as a (low, high) pair for RangeInclusive.  u8::MIN,
u8::MAX, u16::MIN and u16::MAX appear as the literals 0, 255, 0 and
65535. -/

/-- Mirrors IntoRangeKey of RegierungsbezirkSchluessel for
LandSchluessel (src/db.rs, lines 140-145). -/
def LandSchluessel.rangeRegierungsbezirk (self : LandSchluessel) :
    RegierungsbezirkSchluessel × RegierungsbezirkSchluessel :=
  (RegierungsbezirkSchluessel.new self 0, RegierungsbezirkSchluessel.new self 255)

/-- Mirrors IntoRangeKey of RegionSchluessel for LandSchluessel
(src/db.rs, lines 148-153). -/
def LandSchluessel.rangeRegion (self : LandSchluessel) :
    RegionSchluessel × RegionSchluessel :=
  (RegionSchluessel.new (RegierungsbezirkSchluessel.new self 0) 0,
   RegionSchluessel.new (RegierungsbezirkSchluessel.new self 255) 255)

/-- Mirrors IntoRangeKey of KreisSchluessel for LandSchluessel
(src/db.rs, lines 156-161). -/
def LandSchluessel.rangeKreis (self : LandSchluessel) :
    KreisSchluessel × KreisSchluessel :=
  (KreisSchluessel.new (RegierungsbezirkSchluessel.new self 0) 0,
   KreisSchluessel.new (RegierungsbezirkSchluessel.new self 255) 255)

/-- Mirrors IntoRangeKey of GemeindeverbandSchluessel for LandSchluessel
(src/db.rs, lines 164-175). -/
def LandSchluessel.rangeGemeindeverband (self : LandSchluessel) :
    GemeindeverbandSchluessel × GemeindeverbandSchluessel :=
  (GemeindeverbandSchluessel.new
     (KreisSchluessel.new (RegierungsbezirkSchluessel.new self 0) 0) 0,
   GemeindeverbandSchluessel.new
     (KreisSchluessel.new (RegierungsbezirkSchluessel.new self 255) 255) 65535)

/-- Mirrors IntoRangeKey of GemeindeSchluessel for LandSchluessel
(src/db.rs, lines 178-195). -/
def LandSchluessel.rangeGemeinde (self : LandSchluessel) :
    GemeindeSchluessel × GemeindeSchluessel :=
  (GemeindeSchluessel.new
     (GemeindeverbandSchluessel.new
       (KreisSchluessel.new (RegierungsbezirkSchluessel.new self 0) 0) 0) 0,
   GemeindeSchluessel.new
     (GemeindeverbandSchluessel.new
       (KreisSchluessel.new (RegierungsbezirkSchluessel.new self 255) 255) 65535) 65535)

/-- Mirrors IntoRangeKey of RegionSchluessel for
RegierungsbezirkSchluessel (src/db.rs, lines 198-202). -/
def RegierungsbezirkSchluessel.rangeRegion
    (self : RegierungsbezirkSchluessel) :
    RegionSchluessel × RegionSchluessel :=
  (RegionSchluessel.new self 0, RegionSchluessel.new self 255)

/-- Mirrors IntoRangeKey of KreisSchluessel for
RegierungsbezirkSchluessel (src/db.rs, lines 205-209). -/
def RegierungsbezirkSchluessel.rangeKreis
    (self : RegierungsbezirkSchluessel) :
    KreisSchluessel × KreisSchluessel :=
  (KreisSchluessel.new self 0, KreisSchluessel.new self 255)

/-- Mirrors IntoRangeKey of GemeindeverbandSchluessel for
RegierungsbezirkSchluessel (src/db.rs, lines 213-218). -/
def RegierungsbezirkSchluessel.rangeGemeindeverband
    (self : RegierungsbezirkSchluessel) :
    GemeindeverbandSchluessel × GemeindeverbandSchluessel :=
  (GemeindeverbandSchluessel.new (KreisSchluessel.new self 0) 0,
   GemeindeverbandSchluessel.new (KreisSchluessel.new self 255) 65535)

/-- Mirrors IntoRangeKey of GemeindeSchluessel for
RegierungsbezirkSchluessel (src/db.rs, lines 221-232). -/
def RegierungsbezirkSchluessel.rangeGemeinde
    (self : RegierungsbezirkSchluessel) :
    GemeindeSchluessel × GemeindeSchluessel :=
  (GemeindeSchluessel.new
     (GemeindeverbandSchluessel.new (KreisSchluessel.new self 0) 0) 0,
   GemeindeSchluessel.new
     (GemeindeverbandSchluessel.new (KreisSchluessel.new self 255) 65535) 65535)

/-- Mirrors IntoRangeKey of GemeindeverbandSchluessel for
KreisSchluessel (src/db.rs, lines 235-240). -/
def KreisSchluessel.rangeGemeindeverband (self : KreisSchluessel) :
    GemeindeverbandSchluessel × GemeindeverbandSchluessel :=
  (GemeindeverbandSchluessel.new self 0,
   GemeindeverbandSchluessel.new self 65535)

/-- Mirrors IntoRangeKey of GemeindeSchluessel for KreisSchluessel
(src/db.rs, lines 243-248). -/
def KreisSchluessel.rangeGemeinde (self : KreisSchluessel) :
    GemeindeSchluessel × GemeindeSchluessel :=
  (GemeindeSchluessel.new (GemeindeverbandSchluessel.new self 0) 0,
   GemeindeSchluessel.new (GemeindeverbandSchluessel.new self 65535) 65535)

/-- Mirrors IntoRangeKey of GemeindeSchluessel for
GemeindeverbandSchluessel (src/db.rs, lines 251-255). -/
def GemeindeverbandSchluessel.rangeGemeinde
    (self : GemeindeverbandSchluessel) :
    GemeindeSchluessel × GemeindeSchluessel :=
  (GemeindeSchluessel.new self 0, GemeindeSchluessel.new self 65535)

/-! IterChildrenOf (src/db.rs, lines 434-484): each impl scans its
kind's map over the range built by IntoRangeKey; Database::children then
drops the keys. -/

/-- Mirrors IterChildrenOf for RegierungsbezirkDaten (src/db.rs,
line 441). -/
def Database.iterChildrenRegierungsbezirk (db : Database)
    (r : RegierungsbezirkSchluessel × RegierungsbezirkSchluessel) :
    List (RegierungsbezirkSchluessel × RegierungsbezirkDaten) :=
  btRange RegierungsbezirkSchluessel.cmp r.1 r.2 db.regierungsbezirke

/-- Mirrors IterChildrenOf for RegionDaten (src/db.rs, line 450). -/
def Database.iterChildrenRegion (db : Database)
    (r : RegionSchluessel × RegionSchluessel) :
    List (RegionSchluessel × RegionDaten) :=
  btRange RegionSchluessel.cmp r.1 r.2 db.regionen

/-- Mirrors IterChildrenOf for KreisDaten (src/db.rs, line 459). -/
def Database.iterChildrenKreis (db : Database)
    (r : KreisSchluessel × KreisSchluessel) :
    List (KreisSchluessel × KreisDaten) :=
  btRange KreisSchluessel.cmp r.1 r.2 db.kreise

/-- Mirrors IterChildrenOf for GemeindeverbandDaten (src/db.rs,
line 468). -/
def Database.iterChildrenGemeindeverband (db : Database)
    (r : GemeindeverbandSchluessel × GemeindeverbandSchluessel) :
    List (GemeindeverbandSchluessel × GemeindeverbandDaten) :=
  btRange GemeindeverbandSchluessel.cmp r.1 r.2 db.gemeindeverbaende

/-- Mirrors IterChildrenOf for GemeindeDaten (src/db.rs, line 477). -/
def Database.iterChildrenGemeinde (db : Database)
    (r : GemeindeSchluessel × GemeindeSchluessel) :
    List (GemeindeSchluessel × GemeindeDaten) :=
  btRange GemeindeSchluessel.cmp r.1 r.2 db.gemeinden

/-! Strings and the fixed-width codec.  A Rust str is a list of Unicode
scalar values; str::len counts UTF-8 bytes; byte-range indexing s[a..b]
panics when a bound is not a character boundary or exceeds the length,
which the model renders as none. -/

/-- Rust str::len: the UTF-8 byte count. -/
def byteLen (s : List Char) : Nat :=
  (s.map Char.utf8Size).sum

/-- Byte-exact split: consume exactly n UTF-8 bytes from the front.
Returns none when n overshoots the string or falls inside a character,
the two conditions under which Rust byte indexing panics. -/
def splitAtBytes : Nat → List Char → Option (List Char × List Char)
  | 0, s => some ([], s)
  | _ + 1, [] => none
  | n + 1, c :: cs =>
    if c.utf8Size ≤ n + 1 then
      (splitAtBytes (n + 1 - c.utf8Size) cs).map (fun p => (c :: p.1, p.2))
    else
      none

/-- Rust byte slicing s[a..b] (requires a ≤ b); none models the panic on
an invalid index. -/
def sliceBytes (a b : Nat) (s : List Char) : Option (List Char) :=
  (splitAtBytes a s).bind (fun p => (splitAtBytes (b - a) p.2).map Prod.fst)

/-- Numeric value of an ASCII digit character. -/
def charVal (c : Char) : Nat :=
  c.toNat - 48

/-- Value of a decimal digit string, most significant first. -/
def parseDigits (s : List Char) : Nat :=
  s.foldl (fun a c => 10 * a + charVal c) 0

/-- Rust FromStr for an unsigned integer type with maximum maxVal
(u8, u16, u32): an optional leading plus sign, then one or more ASCII
decimal digits, rejecting overflow. -/
def rustParseNat (maxVal : Nat) (s : List Char) : Option Nat :=
  let t := if s.head? = some '+' then s.tail else s
  if t.isEmpty then none
  else if t.all Char.isDigit then
    if parseDigits t ≤ maxVal then some (parseDigits t) else none
  else none

/-- Rust FromStr for i32: an optional sign, then one or more ASCII
decimal digits, rejecting overflow. -/
def rustParseInt (s : List Char) : Option Int :=
  match s with
  | '-' :: rest =>
    if rest.isEmpty then none
    else if rest.all Char.isDigit then
      if parseDigits rest ≤ 2147483648 then some (-(parseDigits rest : Int))
      else none
    else none
  | _ =>
    (rustParseNat 2147483647 s).map (fun n => (n : Nat))

/-- Decimal digits of n, most significant first, with explicit fuel so
that the definition unfolds by structural recursion. -/
def natToDecAux : Nat → Nat → List Char
  | 0, _ => []
  | fuel + 1, n =>
    if n < 10 then [Char.ofNat (48 + n)]
    else natToDecAux fuel (n / 10) ++ [Char.ofNat (48 + n % 10)]

/-- Rust Display of an unsigned integer: its decimal digits. -/
def natToDec (n : Nat) : List Char :=
  natToDecAux (n + 1) n

/-- Rust format-width padding: right-align s in a field of w characters,
filling with fill on the left; contents longer than w are kept whole. -/
def padLeft (fill : Char) (w : Nat) (s : List Char) : List Char :=
  List.replicate (w - s.length) fill ++ s

/-- Mirrors enum ParseKeyError (src/error.rs, line 28). -/
inductive ParseKeyError where
  | InvalidLength (expected got : Nat) (s : List Char)
  | NonNumeric (s : List Char)
  deriving DecidableEq, Repr

deriving instance DecidableEq for Except

/-- Mirrors ParseKeyError::invalid_length (src/error.rs, line 40): got
is the byte length of the offending string. -/
def ParseKeyError.invalid_length (s : List Char) (expected : Nat) :
    ParseKeyError :=
  .InvalidLength expected (byteLen s) s

/-- Mirrors ParseKeyError::non_numeric (src/error.rs, line 48). -/
def ParseKeyError.non_numeric (s : List Char) : ParseKeyError :=
  .NonNumeric s

/-! FromStr for the key types.  Each function returns
Option (Except ParseKeyError K): the outer none models a Rust panic
(possible only through byte slicing on non-ASCII input), the inner
Except is the Result of the Rust impl. -/

/-- Mirrors FromStr for LandSchluessel (src/model/land.rs,
lines 24-32). -/
def LandSchluessel.from_str (s : List Char) :
    Option (Except ParseKeyError LandSchluessel) :=
  if byteLen s ≠ 2 then some (.error (.invalid_length s 2))
  else
    match rustParseNat 255 s with
    | some land => some (.ok (LandSchluessel.new land))
    | none => some (.error (.non_numeric s))

/-- Mirrors FromStr for RegierungsbezirkSchluessel
(src/model/regierungsbezirk.rs, lines 33-42): parse s[0..2] as the Land
key, s[2..] as a u8. -/
def RegierungsbezirkSchluessel.from_str (s : List Char) :
    Option (Except ParseKeyError RegierungsbezirkSchluessel) :=
  if byteLen s ≠ 3 then some (.error (.invalid_length s 3))
  else
    match splitAtBytes 2 s with
    | none => none
    | some (a, b) =>
      match LandSchluessel.from_str a with
      | none => none
      | some (.error e) => some (.error e)
      | some (.ok land) =>
        match rustParseNat 255 b with
        | some regierungsbezirk =>
          some (.ok (RegierungsbezirkSchluessel.new land regierungsbezirk))
        | none => some (.error (.non_numeric s))

/-- Mirrors FromStr for RegionSchluessel (src/model/region.rs,
lines 34-43): parse s[0..3] as the Regierungsbezirk key, s[3..] as a
u8. -/
def RegionSchluessel.from_str (s : List Char) :
    Option (Except ParseKeyError RegionSchluessel) :=
  if byteLen s ≠ 4 then some (.error (.invalid_length s 4))
  else
    match splitAtBytes 3 s with
    | none => none
    | some (a, b) =>
      match RegierungsbezirkSchluessel.from_str a with
      | none => none
      | some (.error e) => some (.error e)
      | some (.ok regierungsbezirk) =>
        match rustParseNat 255 b with
        | some region => some (.ok (RegionSchluessel.new regierungsbezirk region))
        | none => some (.error (.non_numeric s))

/-- Mirrors FromStr for KreisSchluessel (src/model/kreis.rs,
lines 40-49): parse s[0..3] as the Regierungsbezirk key, s[3..] as a
u8. -/
def KreisSchluessel.from_str (s : List Char) :
    Option (Except ParseKeyError KreisSchluessel) :=
  if byteLen s ≠ 5 then some (.error (.invalid_length s 5))
  else
    match splitAtBytes 3 s with
    | none => none
    | some (a, b) =>
      match RegierungsbezirkSchluessel.from_str a with
      | none => none
      | some (.error e) => some (.error e)
      | some (.ok regierungsbezirk) =>
        match rustParseNat 255 b with
        | some kreis => some (.ok (KreisSchluessel.new regierungsbezirk kreis))
        | none => some (.error (.non_numeric s))

/-- Mirrors FromStr for GemeindeverbandSchluessel
(src/model/gemeindeverband.rs, lines 53-62): parse s[0..5] as the Kreis
key, s[5..] as a u16. -/
def GemeindeverbandSchluessel.from_str (s : List Char) :
    Option (Except ParseKeyError GemeindeverbandSchluessel) :=
  if byteLen s ≠ 9 then some (.error (.invalid_length s 9))
  else
    match splitAtBytes 5 s with
    | none => none
    | some (a, b) =>
      match KreisSchluessel.from_str a with
      | none => none
      | some (.error e) => some (.error e)
      | some (.ok kreis) =>
        match rustParseNat 65535 b with
        | some gemeindeverband =>
          some (.ok (GemeindeverbandSchluessel.new kreis gemeindeverband))
        | none => some (.error (.non_numeric s))

/-- Mirrors FromStr for GemeindeSchluessel (src/model/gemeinde.rs,
lines 104-113): parse s[0..9] as the Gemeindeverband key, s[9..] as a
u16. -/
def GemeindeSchluessel.from_str (s : List Char) :
    Option (Except ParseKeyError GemeindeSchluessel) :=
  if byteLen s ≠ 12 then some (.error (.invalid_length s 12))
  else
    match splitAtBytes 9 s with
    | none => none
    | some (a, b) =>
      match GemeindeverbandSchluessel.from_str a with
      | none => none
      | some (.error e) => some (.error e)
      | some (.ok gemeindeverband) =>
        match rustParseNat 65535 b with
        | some gemeinde => some (.ok (GemeindeSchluessel.new gemeindeverband gemeinde))
        | none => some (.error (.non_numeric s))

/-- Mirrors FromStr for RegionalSchluessel (src/model/gemeinde.rs,
lines 37-46): parse s[0..5] as the Kreis key, s[5..] as a u16. -/
def RegionalSchluessel.from_str (s : List Char) :
    Option (Except ParseKeyError RegionalSchluessel) :=
  if byteLen s ≠ 8 then some (.error (.invalid_length s 8))
  else
    match splitAtBytes 5 s with
    | none => none
    | some (a, b) =>
      match KreisSchluessel.from_str a with
      | none => none
      | some (.error e) => some (.error e)
      | some (.ok kreis) =>
        match rustParseNat 65535 b with
        | some gemeinde => some (.ok (RegionalSchluessel.new kreis gemeinde))
        | none => some (.error (.non_numeric s))

/-! Display for the key types.  The format strings of the sources:
LandSchluessel uses {:02} (zero fill, width 2); the nested key types
append their local component with {:1}, {:2}, {:4}, {:3} respectively,
which in Rust right-aligns with SPACE fill to that minimum width. -/

/-- Mirrors Display for LandSchluessel (src/model/land.rs, line 36):
format string {:02}. -/
def LandSchluessel.display (k : LandSchluessel) : List Char :=
  padLeft '0' 2 (natToDec k.land)

/-- Mirrors Display for RegierungsbezirkSchluessel
(src/model/regierungsbezirk.rs, line 46): format string {}{:1}. -/
def RegierungsbezirkSchluessel.display (k : RegierungsbezirkSchluessel) :
    List Char :=
  k.land.display ++ padLeft ' ' 1 (natToDec k.regierungsbezirk)

/-- Mirrors Display for RegionSchluessel (src/model/region.rs, line 47):
format string {}{:1}. -/
def RegionSchluessel.display (k : RegionSchluessel) : List Char :=
  k.regierungsbezirk.display ++ padLeft ' ' 1 (natToDec k.region)

/-- Mirrors Display for KreisSchluessel (src/model/kreis.rs, line 53):
format string {}{:2}. -/
def KreisSchluessel.display (k : KreisSchluessel) : List Char :=
  k.regierungsbezirk.display ++ padLeft ' ' 2 (natToDec k.kreis)

/-- Mirrors Display for GemeindeverbandSchluessel
(src/model/gemeindeverband.rs, line 66): format string {}{:4}. -/
def GemeindeverbandSchluessel.display (k : GemeindeverbandSchluessel) :
    List Char :=
  k.kreis.display ++ padLeft ' ' 4 (natToDec k.gemeindeverband)

/-- Mirrors Display for GemeindeSchluessel (src/model/gemeinde.rs,
line 117): format string {}{:3}. -/
def GemeindeSchluessel.display (k : GemeindeSchluessel) : List Char :=
  k.gemeindeverband.display ++ padLeft ' ' 3 (natToDec k.gemeinde)

/-- Mirrors Display for RegionalSchluessel (src/model/gemeinde.rs,
line 50): format string {}{:3}. -/
def RegionalSchluessel.display (k : RegionalSchluessel) : List Char :=
  k.kreis.display ++ padLeft ' ' 3 (natToDec k.gemeinde)

/-! The date decoder of src/parser.rs. -/

/-- Error type of the record decoder (mirrors enum Error,
src/error.rs, line 5, with the payloads the claims inspect). -/
inductive ParserError where
  | Io
  | ParseInt
  | InvalidType (ty : Nat)
  | InvalidTextkennzeichen (n : Nat)
  | ParseKey (e : ParseKeyError)
  deriving DecidableEq, Repr

/-- Whether an (astronomical-calendar) year is a leap year. -/
def isLeapYear (y : Int) : Bool :=
  y % 4 = 0 && (y % 100 ≠ 0 || y % 400 = 0)

/-- Days in a month of the proleptic Gregorian calendar. -/
def daysInMonth (y : Int) (m : Nat) : Nat :=
  match m with
  | 1 => 31
  | 2 => if isLeapYear y then 29 else 28
  | 3 => 31
  | 4 => 30
  | 5 => 31
  | 6 => 30
  | 7 => 31
  | 8 => 31
  | 9 => 30
  | 10 => 31
  | 11 => 30
  | 12 => 31
  | _ => 0

/-- Model of chrono::NaiveDate::from_ymd: none models the chrono panic
on an invalid calendar date.  (chrono additionally restricts years to
roughly plus or minus 2^18, which a four-byte year field can never
leave, so that check is elided.) -/
def NaiveDate.from_ymd (y : Int) (m d : Nat) : Option NaiveDate :=
  if 1 ≤ m ∧ m ≤ 12 ∧ 1 ≤ d ∧ d ≤ daysInMonth y m then some ⟨y, m, d⟩
  else none

/-- Mirrors parse_date (src/parser.rs, lines 346-352):
NaiveDate::from_ymd(s[0..4].parse()?, s[4..6].parse()?,
s[6..8].parse()?).  The year parses as i32, month and day as u32; the
outer none models a panic, from either a byte index out of range (s
shorter than 8 bytes, or a bound inside a multi-byte character) or
chrono's from_ymd on an invalid calendar date. -/
def parse_date (s : List Char) : Option (Except ParserError NaiveDate) :=
  match sliceBytes 0 4 s with
  | none => none
  | some ys =>
    match rustParseInt ys with
    | none => some (.error .ParseInt)
    | some y =>
      match sliceBytes 4 6 s with
      | none => none
      | some ms =>
        match rustParseNat 4294967295 ms with
        | none => some (.error .ParseInt)
        | some m =>
          match sliceBytes 6 8 s with
          | none => none
          | some ds =>
            match rustParseNat 4294967295 ds with
            | none => some (.error .ParseInt)
            | some d =>
              match NaiveDate.from_ymd y m d with
              | some date => some (.ok date)
              | none => none

/-! The fixed-width field reader of src/parser.rs. -/

/-- Mirrors the counting loop of FieldReader::next (src/parser.rs,
lines 43-50): consume up to n characters from the Chars iterator,
summing their UTF-8 sizes; returns the byte count and the final
iterator state. -/
def fieldNextLoop : Nat → List Char → Nat × List Char
  | 0, cs => (0, cs)
  | _ + 1, [] => (0, [])
  | n + 1, c :: cs =>
    let r := fieldNextLoop n cs
    (c.utf8Size + r.1, r.2)

/-- Mirrors FieldReader::next (src/parser.rs, lines 39-57): run the
counting loop, then slice the first nb bytes off the saved string.  The
first component is the returned field (none would be a panic of the
byte slice); the second is the reader's remaining character cursor. -/
def FieldReader.next (n : Nat) (chars : List Char) :
    Option (List Char) × List Char :=
  let r := fieldNextLoop n chars
  ((splitAtBytes r.1 chars).map Prod.fst, r.2)

/-! Boundedness of key components: in Rust the u8 and u16 component
types bound every component by construction; the Nat model carries the
bounds as predicates. -/

/-- All components fit in their Rust integer type (u8). -/
def LandSchluessel.Bounded (k : LandSchluessel) : Prop :=
  k.land ≤ 255

/-- All components fit in their Rust integer types. -/
def RegierungsbezirkSchluessel.Bounded (k : RegierungsbezirkSchluessel) :
    Prop :=
  k.land.Bounded ∧ k.regierungsbezirk ≤ 255

/-- All components fit in their Rust integer types. -/
def RegionSchluessel.Bounded (k : RegionSchluessel) : Prop :=
  k.regierungsbezirk.Bounded ∧ k.region ≤ 255

/-- All components fit in their Rust integer types. -/
def KreisSchluessel.Bounded (k : KreisSchluessel) : Prop :=
  k.regierungsbezirk.Bounded ∧ k.kreis ≤ 255

/-- All components fit in their Rust integer types. -/
def GemeindeverbandSchluessel.Bounded (k : GemeindeverbandSchluessel) :
    Prop :=
  k.kreis.Bounded ∧ k.gemeindeverband ≤ 65535

/-- All components fit in their Rust integer types. -/
def GemeindeSchluessel.Bounded (k : GemeindeSchluessel) : Prop :=
  k.gemeindeverband.Bounded ∧ k.gemeinde ≤ 65535

/-- The key of the record fits in its Rust integer types. -/
def Datensatz.Bounded : Datensatz → Prop
  | .Land land => land.schluessel.Bounded
  | .Regierungsbezirk regierungsbezirk => regierungsbezirk.schluessel.Bounded
  | .Region region => region.schluessel.Bounded
  | .Kreis kreis => kreis.schluessel.Bounded
  | .Gemeindeverband gemeindeverband => gemeindeverband.schluessel.Bounded
  | .Gemeinde gemeinde => gemeinde.schluessel.Bounded

instance (k : LandSchluessel) : Decidable k.Bounded := by
  unfold LandSchluessel.Bounded; exact inferInstance

instance (k : RegierungsbezirkSchluessel) : Decidable k.Bounded := by
  unfold RegierungsbezirkSchluessel.Bounded; exact inferInstance

instance (k : RegionSchluessel) : Decidable k.Bounded := by
  unfold RegionSchluessel.Bounded; exact inferInstance

instance (k : KreisSchluessel) : Decidable k.Bounded := by
  unfold KreisSchluessel.Bounded; exact inferInstance

instance (k : GemeindeverbandSchluessel) : Decidable k.Bounded := by
  unfold GemeindeverbandSchluessel.Bounded; exact inferInstance

instance (k : GemeindeSchluessel) : Decidable k.Bounded := by
  unfold GemeindeSchluessel.Bounded; exact inferInstance

instance (r : Datensatz) : Decidable r.Bounded := by
  unfold Datensatz.Bounded
  cases r <;> exact inferInstance

/-- Sortedness of all six ordered maps: the BTreeMap representation
invariant, which holds for every database reachable through insert. -/
def Database.WF (db : Database) : Prop :=
  btWF LandSchluessel.cmp db.laender ∧
  btWF RegierungsbezirkSchluessel.cmp db.regierungsbezirke ∧
  btWF RegionSchluessel.cmp db.regionen ∧
  btWF KreisSchluessel.cmp db.kreise ∧
  btWF GemeindeverbandSchluessel.cmp db.gemeindeverbaende ∧
  btWF GemeindeSchluessel.cmp db.gemeinden

instance (db : Database) : Decidable db.WF := by
  unfold Database.WF btWF
  exact inferInstance

/-- All keys stored in the six ordered maps are bounded. -/
def Database.KeysBounded (db : Database) : Prop :=
  (∀ kv ∈ db.laender, (kv.1 : LandSchluessel).Bounded) ∧
  (∀ kv ∈ db.regierungsbezirke, (kv.1 : RegierungsbezirkSchluessel).Bounded) ∧
  (∀ kv ∈ db.regionen, (kv.1 : RegionSchluessel).Bounded) ∧
  (∀ kv ∈ db.kreise, (kv.1 : KreisSchluessel).Bounded) ∧
  (∀ kv ∈ db.gemeindeverbaende, (kv.1 : GemeindeverbandSchluessel).Bounded) ∧
  (∀ kv ∈ db.gemeinden, (kv.1 : GemeindeSchluessel).Bounded)

/-- The record is a municipality whose key projects to the given compact
key (the condition of claim C8). -/
def Datensatz.projectsTo (r : Datensatz) (rk : RegionalSchluessel) : Prop :=
  match r with
  | .Gemeinde gemeinde => gemeinde.schluessel.toRegional = rk
  | _ => False

instance (r : Datensatz) (rk : RegionalSchluessel) :
    Decidable (r.projectsTo rk) := by
  unfold Datensatz.projectsTo
  cases r <;> exact inferInstance

/-- Two records of the same entity kind carrying equal keys. -/
def Datensatz.sameKey : Datensatz → Datensatz → Prop
  | .Land a, .Land b => a.schluessel = b.schluessel
  | .Regierungsbezirk a, .Regierungsbezirk b => a.schluessel = b.schluessel
  | .Region a, .Region b => a.schluessel = b.schluessel
  | .Kreis a, .Kreis b => a.schluessel = b.schluessel
  | .Gemeindeverband a, .Gemeindeverband b => a.schluessel = b.schluessel
  | .Gemeinde a, .Gemeinde b => a.schluessel = b.schluessel
  | _, _ => False

instance (r1 r2 : Datensatz) : Decidable (r1.sameKey r2) := by
  unfold Datensatz.sameKey
  cases r1 <;> cases r2 <;> exact inferInstance

/-- In db, the record r is the one stored under its key, and its key
occurs exactly once in its kind's map (the conclusion of claim C9). -/
def Database.storedUniquely (db : Database) : Datensatz → Prop
  | .Land a =>
    btGet LandSchluessel.cmp a.schluessel db.laender = some a ∧
    btCountKey LandSchluessel.cmp a.schluessel db.laender = 1
  | .Regierungsbezirk a =>
    btGet RegierungsbezirkSchluessel.cmp a.schluessel db.regierungsbezirke = some a ∧
    btCountKey RegierungsbezirkSchluessel.cmp a.schluessel db.regierungsbezirke = 1
  | .Region a =>
    btGet RegionSchluessel.cmp a.schluessel db.regionen = some a ∧
    btCountKey RegionSchluessel.cmp a.schluessel db.regionen = 1
  | .Kreis a =>
    btGet KreisSchluessel.cmp a.schluessel db.kreise = some a ∧
    btCountKey KreisSchluessel.cmp a.schluessel db.kreise = 1
  | .Gemeindeverband a =>
    btGet GemeindeverbandSchluessel.cmp a.schluessel db.gemeindeverbaende = some a ∧
    btCountKey GemeindeverbandSchluessel.cmp a.schluessel db.gemeindeverbaende = 1
  | .Gemeinde a =>
    btGet GemeindeSchluessel.cmp a.schluessel db.gemeinden = some a ∧
    btCountKey GemeindeSchluessel.cmp a.schluessel db.gemeinden = 1

instance (db : Database) (r : Datensatz) :
    Decidable (db.storedUniquely r) := by
  unfold Database.storedUniquely
  cases r <;> exact inferInstance

/-! Concrete fixtures, patterned on the Saarland test set of src/db.rs:
one Land, two Kreise and three Gemeinden, used to instantiate the
theorems below at computable inputs. -/

/-- Gebietsstand of the test data. -/
def td : NaiveDate := ⟨2021, 4, 30⟩

/-- Land 10 (Saarland). -/
def tLand10 : LandDaten :=
  ⟨td, LandSchluessel.new 10, ['S', 'L'], ['S', 'B']⟩

/-- Kreis 10041 (Regionalverband Saarbruecken), entered through
new_land, so its Regierungsbezirk component is 0. -/
def tKreis41 : KreisSchluessel :=
  KreisSchluessel.new_land (LandSchluessel.new 10) 41

/-- Kreis 10042 (Merzig-Wadern). -/
def tKreis42 : KreisSchluessel :=
  KreisSchluessel.new_land (LandSchluessel.new 10) 42

/-- Kreis record for tKreis41. -/
def tKreisDaten41 : KreisDaten :=
  ⟨td, tKreis41, ['R', 'V'], ['S', 'B'], .Regionalverband⟩

/-- Kreis record for tKreis42. -/
def tKreisDaten42 : KreisDaten :=
  ⟨td, tKreis42, ['M', 'W'], ['M', 'Z'], .Landkreis⟩

/-- Gemeinde 100 in Gemeindeverband 100 of Kreis 10041. -/
def tGem100 : GemeindeDaten :=
  { gebietsstand := td
    schluessel := GemeindeSchluessel.new (GemeindeverbandSchluessel.new tKreis41 100) 100
    name := ['S', 'B']
    textkennzeichen := .Stadt
    area := 16752
    population_total := 180374
    population_male := 89528
    plz := ['6', '6', '1', '1', '1']
    plz_unambiguous := false
    finanzamtbezirk := some 1040
    gerichtbarkeit := some ⟨['1'], ['1'], ['0', '9']⟩
    arbeitsargenturbezirk := some 55501
    bundestagswahlkreise := some (.Single 296) }

/-- Gemeinde 511 in Gemeindeverband 511 of Kreis 10041. -/
def tGem511 : GemeindeDaten :=
  { gebietsstand := td
    schluessel := GemeindeSchluessel.new (GemeindeverbandSchluessel.new tKreis41 511) 511
    name := ['F', 'R']
    textkennzeichen := .Stadt
    area := 899
    population_total := 9987
    population_male := 4907
    plz := ['6', '6', '2', '9', '9']
    plz_unambiguous := true
    finanzamtbezirk := some 1070
    gerichtbarkeit := some ⟨['1'], ['1'], ['0', '9']⟩
    arbeitsargenturbezirk := some 55513
    bundestagswahlkreise := some (.Single 299) }

/-- Gemeinde 111 in Gemeindeverband 111 of Kreis 10042. -/
def tGem111 : GemeindeDaten :=
  { gebietsstand := td
    schluessel := GemeindeSchluessel.new (GemeindeverbandSchluessel.new tKreis42 111) 111
    name := ['B', 'E']
    textkennzeichen := .KreisangehoerigeGemeinde
    area := 5185
    population_total := 14889
    population_male := 7315
    plz := ['6', '6', '7', '0', '1']
    plz_unambiguous := true
    finanzamtbezirk := some 1020
    gerichtbarkeit := some ⟨['1'], ['1'], ['0', '4']⟩
    arbeitsargenturbezirk := some 55523
    bundestagswahlkreise := some (.Single 297) }

/-- The loaded record sequence of the fixtures. -/
def tRecords : List Datensatz :=
  [.Land tLand10, .Kreis tKreisDaten41, .Kreis tKreisDaten42,
   .Gemeinde tGem100, .Gemeinde tGem511, .Gemeinde tGem111]

/-- A second record for Land 10, to exercise same-key replacement. -/
def tLand10b : LandDaten :=
  ⟨td, LandSchluessel.new 10, ['S', 'L', '2'], ['S', 'B']⟩

/-! Expected parse results of an all-digit key string, component by
component, used to state the codec round-trip theorems. -/

/-- The Land key denoted by a 2-digit string. -/
def landOfDigits (s : List Char) : LandSchluessel :=
  LandSchluessel.new (parseDigits s)

/-- The Regierungsbezirk key denoted by a 3-digit string. -/
def rbOfDigits (s : List Char) : RegierungsbezirkSchluessel :=
  RegierungsbezirkSchluessel.new (landOfDigits (s.take 2)) (parseDigits (s.drop 2))

/-- The Region key denoted by a 4-digit string. -/
def regionOfDigits (s : List Char) : RegionSchluessel :=
  RegionSchluessel.new (rbOfDigits (s.take 3)) (parseDigits (s.drop 3))

/-- The Kreis key denoted by a 5-digit string. -/
def kreisOfDigits (s : List Char) : KreisSchluessel :=
  KreisSchluessel.new (rbOfDigits (s.take 3)) (parseDigits (s.drop 3))

/-- The Gemeindeverband key denoted by a 9-digit string. -/
def gvOfDigits (s : List Char) : GemeindeverbandSchluessel :=
  GemeindeverbandSchluessel.new (kreisOfDigits (s.take 5)) (parseDigits (s.drop 5))

/-- The Gemeinde key denoted by a 12-digit string. -/
def gemOfDigits (s : List Char) : GemeindeSchluessel :=
  GemeindeSchluessel.new (gvOfDigits (s.take 9)) (parseDigits (s.drop 9))

/-- The compact municipality key denoted by an 8-digit string. -/
def regionalOfDigits (s : List Char) : RegionalSchluessel :=
  RegionalSchluessel.new (kreisOfDigits (s.take 5)) (parseDigits (s.drop 5))

/-! Here the definitions end and the verification begins. -/

theorem isLE_iff (o : Ordering) : o.isLE = true ↔ o = .lt ∨ o = .eq := by
  cases o <;> simp [Ordering.isLE]

theorem land_eqIff {a b : LandSchluessel} : a = b ↔ a.land = b.land := by
  cases a; cases b; simp

theorem rb_eqIff {a b : RegierungsbezirkSchluessel} :
    a = b ↔ a.land.land = b.land.land ∧ a.regierungsbezirk = b.regierungsbezirk := by
  cases a; cases b; simp [land_eqIff]

theorem kreis_eqIff {a b : KreisSchluessel} :
    a = b ↔ a.regierungsbezirk.land.land = b.regierungsbezirk.land.land ∧
      a.regierungsbezirk.regierungsbezirk = b.regierungsbezirk.regierungsbezirk ∧
      a.kreis = b.kreis := by
  cases a; cases b; simp [rb_eqIff, and_assoc]

theorem gv_eqIff {a b : GemeindeverbandSchluessel} :
    a = b ↔ a.kreis.regierungsbezirk.land.land = b.kreis.regierungsbezirk.land.land ∧
      a.kreis.regierungsbezirk.regierungsbezirk = b.kreis.regierungsbezirk.regierungsbezirk ∧
      a.kreis.kreis = b.kreis.kreis ∧
      a.gemeindeverband = b.gemeindeverband := by
  cases a; cases b; simp [kreis_eqIff, and_assoc]

/-- Lawfulness of a comparator: agreement of eq with equality, duality
of lt and gt, and transitivity of lt. -/
structure LawfulCmp {K : Type} (cmp : K → K → Ordering) : Prop where
  eq_iff : ∀ a b, cmp a b = .eq ↔ a = b
  gt_iff : ∀ a b, cmp a b = .gt ↔ cmp b a = .lt
  lt_trans : ∀ {a b c}, cmp a b = .lt → cmp b c = .lt → cmp a c = .lt

theorem lawful_nat : LawfulCmp (fun a b : Nat => compare a b) := by
  refine ⟨?_, ?_, ?_⟩
  · intro a b; simpa using Nat.compare_eq_eq
  · intro a b; simp [Nat.compare_eq_gt, Nat.compare_eq_lt]
  · intro a b c hab hbc
    simp only [Nat.compare_eq_lt] at hab hbc ⊢
    omega

/-- Lawfulness is preserved by the lexicographic extension of a lawful
comparator by a Nat component, provided the two projections jointly
determine the key. -/
theorem lawful_then {α β : Type} (f : α → β) (g : α → Nat)
    (c : β → β → Ordering) (hc : LawfulCmp c)
    (hinj : ∀ a b : α, f a = f b → g a = g b → a = b) :
    LawfulCmp (fun a b : α => (c (f a) (f b)).then (compare (g a) (g b))) := by
  refine ⟨?_, ?_, ?_⟩
  · intro a b
    simp only [Ordering.then_eq_eq, hc.eq_iff, Nat.compare_eq_eq]
    constructor
    · rintro ⟨h1, h2⟩; exact hinj a b h1 h2
    · rintro rfl; exact ⟨rfl, rfl⟩
  · intro a b
    simp only [Ordering.then_eq_gt, Ordering.then_eq_lt, hc.gt_iff, hc.eq_iff,
      Nat.compare_eq_gt, Nat.compare_eq_lt]
    constructor
    · rintro (h | ⟨h1, h2⟩)
      · exact .inl h
      · exact .inr ⟨h1.symm, h2⟩
    · rintro (h | ⟨h1, h2⟩)
      · exact .inl h
      · exact .inr ⟨h1.symm, h2⟩
  · intro a b c hab hbc
    simp only [Ordering.then_eq_lt, hc.eq_iff, Nat.compare_eq_lt] at hab hbc ⊢
    rcases hab with h1 | ⟨h1, h2⟩ <;> rcases hbc with h3 | ⟨h3, h4⟩
    · exact .inl (hc.lt_trans h1 h3)
    · exact .inl (h3 ▸ h1)
    · exact .inl (h1 ▸ h3)
    · exact .inr ⟨h1.trans h3, h2.trans h4⟩

theorem lawful_land : LawfulCmp LandSchluessel.cmp := by
  refine ⟨?_, ?_, ?_⟩
  · intro a b
    simp [LandSchluessel.cmp, Nat.compare_eq_eq, land_eqIff]
  · intro a b
    simp [LandSchluessel.cmp, Nat.compare_eq_gt, Nat.compare_eq_lt]
  · intro a b c hab hbc
    simp only [LandSchluessel.cmp, Nat.compare_eq_lt] at hab hbc ⊢
    omega

theorem lawful_rb : LawfulCmp RegierungsbezirkSchluessel.cmp := by
  have h := lawful_then (fun k : RegierungsbezirkSchluessel => k.land)
    (fun k => k.regierungsbezirk) LandSchluessel.cmp lawful_land
    (by intro a b h1 h2; cases a; cases b; simp_all)
  exact h

theorem lawful_region : LawfulCmp RegionSchluessel.cmp := by
  have h := lawful_then (fun k : RegionSchluessel => k.regierungsbezirk)
    (fun k => k.region) RegierungsbezirkSchluessel.cmp lawful_rb
    (by intro a b h1 h2; cases a; cases b; simp_all)
  exact h

theorem lawful_kreis : LawfulCmp KreisSchluessel.cmp := by
  have h := lawful_then (fun k : KreisSchluessel => k.regierungsbezirk)
    (fun k => k.kreis) RegierungsbezirkSchluessel.cmp lawful_rb
    (by intro a b h1 h2; cases a; cases b; simp_all)
  exact h

theorem lawful_gv : LawfulCmp GemeindeverbandSchluessel.cmp := by
  have h := lawful_then (fun k : GemeindeverbandSchluessel => k.kreis)
    (fun k => k.gemeindeverband) KreisSchluessel.cmp lawful_kreis
    (by intro a b h1 h2; cases a; cases b; simp_all)
  exact h

theorem lawful_gem : LawfulCmp GemeindeSchluessel.cmp := by
  have h := lawful_then (fun k : GemeindeSchluessel => k.gemeindeverband)
    (fun k => k.gemeinde) GemeindeverbandSchluessel.cmp lawful_gv
    (by intro a b h1 h2; cases a; cases b; simp_all)
  exact h

theorem lawful_regional : LawfulCmp RegionalSchluessel.cmp := by
  have h := lawful_then (fun k : RegionalSchluessel => k.kreis)
    (fun k => k.gemeinde) KreisSchluessel.cmp lawful_kreis
    (by intro a b h1 h2; cases a; cases b; simp_all)
  exact h

/-! Lemmas about the BTreeMap model. -/

theorem btInsert_mem {K V : Type} (cmp : K → K → Ordering) (k : K) (v : V)
    (l : List (K × V)) :
    ∀ kv ∈ btInsert cmp k v l, kv = (k, v) ∨ kv ∈ l := by
  induction l with
  | nil => intro kv h; simp [btInsert] at h; simp [h]
  | cons hd tl ih =>
    intro kv h
    obtain ⟨k', v'⟩ := hd
    unfold btInsert at h
    rcases hcmp : cmp k k' with _ | _ | _ <;> rw [hcmp] at h <;>
        simp only [List.mem_cons] at h ⊢
    · tauto
    · tauto
    · rcases h with h | h
      · tauto
      · rcases ih kv h with h' | h' <;> tauto

theorem btInsert_self_mem {K V : Type} (cmp : K → K → Ordering) (k : K)
    (v : V) (l : List (K × V)) : (k, v) ∈ btInsert cmp k v l := by
  induction l with
  | nil => simp [btInsert]
  | cons hd tl ih =>
    obtain ⟨k', v'⟩ := hd
    unfold btInsert
    rcases hcmp : cmp k k' with _ | _ | _ <;> simp [ih]

theorem btWF_insert {K V : Type} {cmp : K → K → Ordering}
    (hc : LawfulCmp cmp) {l : List (K × V)} (h : btWF cmp l) (k : K) (v : V) :
    btWF cmp (btInsert cmp k v l) := by
  induction l with
  | nil => simp [btInsert, btWF]
  | cons hd tl ih =>
    obtain ⟨k', v'⟩ := hd
    rw [btWF, List.pairwise_cons] at h
    obtain ⟨hhead, htail⟩ := h
    unfold btInsert
    rcases hcmp : cmp k k' with _ | _ | _
    · rw [btWF, List.pairwise_cons]
      refine ⟨?_, ?_⟩
      · intro kv hkv
        rcases List.mem_cons.mp hkv with h | h
        · simpa [h] using hcmp
        · exact hc.lt_trans hcmp (hhead kv h)
      · rw [List.pairwise_cons]
        exact ⟨hhead, htail⟩
    · rw [btWF, List.pairwise_cons]
      have hk : k = k' := (hc.eq_iff k k').mp hcmp
      exact ⟨fun kv hkv => hk ▸ hhead kv hkv, htail⟩
    · rw [btWF, List.pairwise_cons]
      refine ⟨?_, ih htail⟩
      intro kv hkv
      rcases btInsert_mem cmp k v tl kv hkv with h | h
      · simpa [h] using (hc.gt_iff k k').mp hcmp
      · exact hhead kv h

theorem btGet_insert_self {K V : Type} {cmp : K → K → Ordering}
    (hc : LawfulCmp cmp) (k : K) (v : V) (l : List (K × V)) :
    btGet cmp k (btInsert cmp k v l) = some v := by
  have hkk : cmp k k = .eq := (hc.eq_iff k k).mpr rfl
  induction l with
  | nil => simp [btInsert, btGet, hkk]
  | cons hd tl ih =>
    obtain ⟨k', v'⟩ := hd
    unfold btInsert
    rcases hcmp : cmp k k' with _ | _ | _
    · simp [btGet, hkk]
    · simp [btGet, hkk]
    · simp [btGet, hcmp, ih]

theorem btGet_insert_ne {K V : Type} {cmp : K → K → Ordering}
    (hc : LawfulCmp cmp) {k k' : K} (hne : cmp k k' ≠ .eq) (v : V)
    (l : List (K × V)) :
    btGet cmp k (btInsert cmp k' v l) = btGet cmp k l := by
  induction l with
  | nil => simp [btInsert, btGet, hne]
  | cons hd tl ih =>
    obtain ⟨k0, v0⟩ := hd
    unfold btInsert
    rcases hcmp : cmp k' k0 with _ | _ | _
    · simp [btGet, hne]
    · have : k' = k0 := (hc.eq_iff k' k0).mp hcmp
      subst this
      simp [btGet, hne]
    · rcases hk0 : cmp k k0 with _ | _ | _ <;> simp [btGet, hk0, ih]

theorem btGet_isSome_iff {K V : Type} {cmp : K → K → Ordering}
    (hc : LawfulCmp cmp) (k : K) (l : List (K × V)) :
    (btGet cmp k l).isSome = true ↔ ∃ v, (k, v) ∈ l := by
  induction l with
  | nil => simp [btGet]
  | cons hd tl ih =>
    obtain ⟨k', v'⟩ := hd
    rcases hcmp : cmp k k' with _ | _ | _
    · rw [show btGet cmp k ((k', v') :: tl) = btGet cmp k tl by simp [btGet, hcmp]]
      rw [ih]
      constructor
      · rintro ⟨v, hv⟩; exact ⟨v, List.mem_cons_of_mem _ hv⟩
      · rintro ⟨v, hv⟩
        rcases List.mem_cons.mp hv with h | h
        · exfalso
          have : k = k' := congrArg Prod.fst h
          rw [this, (hc.eq_iff k' k').mpr rfl] at hcmp
          simp at hcmp
        · exact ⟨v, h⟩
    · have hk : k = k' := (hc.eq_iff k k').mp hcmp
      subst hk
      refine ⟨fun _ => ⟨v', List.mem_cons_self _ _⟩, fun _ => ?_⟩
      simp [btGet, hcmp]
    · rw [show btGet cmp k ((k', v') :: tl) = btGet cmp k tl by simp [btGet, hcmp]]
      rw [ih]
      constructor
      · rintro ⟨v, hv⟩; exact ⟨v, List.mem_cons_of_mem _ hv⟩
      · rintro ⟨v, hv⟩
        rcases List.mem_cons.mp hv with h | h
        · exfalso
          have : k = k' := congrArg Prod.fst h
          rw [this, (hc.eq_iff k' k').mpr rfl] at hcmp
          simp at hcmp
        · exact ⟨v, h⟩

theorem btCountKey_nil {K V : Type} (cmp : K → K → Ordering) (k : K) :
    btCountKey cmp k ([] : List (K × V)) = 0 := rfl

theorem btCountKey_cons {K V : Type} (cmp : K → K → Ordering) (k : K)
    (hd : K × V) (tl : List (K × V)) :
    btCountKey cmp k (hd :: tl) =
      btCountKey cmp k tl + (if cmp k hd.1 = .eq then 1 else 0) := by
  unfold btCountKey
  rw [List.filter_cons]
  by_cases h : cmp k hd.1 = .eq
  · rw [if_pos (by simp [h]), if_pos h, List.length_cons]
  · rw [if_neg (by simp [h]), if_neg h, Nat.add_zero]

theorem btCountKey_eq_zero {K V : Type} {cmp : K → K → Ordering} {k : K}
    {l : List (K × V)} (h : ∀ kv ∈ l, cmp k kv.1 ≠ .eq) :
    btCountKey cmp k l = 0 := by
  induction l with
  | nil => rfl
  | cons hd tl ih =>
    rw [btCountKey_cons, if_neg (h hd (List.mem_cons_self _ _)),
      ih (fun kv hkv => h kv (List.mem_cons_of_mem _ hkv))]

theorem btCountKey_insert {K V : Type} {cmp : K → K → Ordering}
    (hc : LawfulCmp cmp) {l : List (K × V)} (h : btWF cmp l) (k : K) (v : V) :
    btCountKey cmp k (btInsert cmp k v l) = 1 := by
  have hkk : cmp k k = .eq := (hc.eq_iff k k).mpr rfl
  induction l with
  | nil => simp [btInsert, btCountKey_cons, btCountKey_nil, hkk]
  | cons hd tl ih =>
    obtain ⟨k', v'⟩ := hd
    rw [btWF, List.pairwise_cons] at h
    obtain ⟨hhead, htail⟩ := h
    unfold btInsert
    rcases hcmp : cmp k k' with _ | _ | _
    · have hz : btCountKey cmp k ((k', v') :: tl) = 0 := by
        refine btCountKey_eq_zero ?_
        intro kv hkv
        rcases List.mem_cons.mp hkv with hh | hh
        · rw [hh]; simp [hcmp]
        · simp [hc.lt_trans hcmp (hhead kv hh)]
      rw [btCountKey_cons, hz, if_pos hkk]
    · have hk : k = k' := (hc.eq_iff k k').mp hcmp
      have hz : btCountKey cmp k tl = 0 := by
        refine btCountKey_eq_zero ?_
        intro kv hkv
        have := hhead kv hkv
        rw [← hk] at this
        simp [this]
      rw [btCountKey_cons, hz, if_pos hkk]
    · rw [btCountKey_cons, if_neg (by simp [hcmp]), ih htail]

theorem btWF_filter {K V : Type} {cmp : K → K → Ordering}
    {l : List (K × V)} (h : btWF cmp l) (p : K × V → Bool) :
    btWF cmp (l.filter p) := by
  exact List.Pairwise.sublist (List.filter_sublist l) h

/-! Lemmas about the HashMap model. -/

theorem hmGet_nil {K V : Type} [DecidableEq K] (k : K) :
    hmGet k ([] : List (K × V)) = none := rfl

theorem hmGet_cons {K V : Type} [DecidableEq K] (k : K) (hd : K × V)
    (tl : List (K × V)) :
    hmGet k (hd :: tl) = if hd.1 = k then some hd.2 else hmGet k tl := by
  by_cases h : hd.1 = k <;> simp [hmGet, List.find?_cons, h]

theorem hmGet_insert_self {K V : Type} [DecidableEq K] (k : K) (v : V)
    (l : List (K × V)) : hmGet k (hmInsert k v l) = some v := by
  rw [hmInsert, hmGet_cons, if_pos rfl]

theorem hmGet_filter_ne {K V : Type} [DecidableEq K] {k k' : K}
    (hne : k' ≠ k) (l : List (K × V)) :
    hmGet k' (l.filter (fun kv => decide (kv.1 ≠ k))) = hmGet k' l := by
  induction l with
  | nil => rfl
  | cons hd tl ih =>
    by_cases hk : hd.1 = k
    · rw [List.filter_cons_of_neg (by simpa using hk), ih, hmGet_cons,
        if_neg (by rw [hk]; exact fun hh => hne hh.symm)]
    · rw [List.filter_cons_of_pos (by simpa using hk), hmGet_cons, hmGet_cons]
      by_cases hk' : hd.1 = k'
      · rw [if_pos hk', if_pos hk']
      · rw [if_neg hk', if_neg hk', ih]

theorem hmGet_insert_ne {K V : Type} [DecidableEq K] {k k' : K}
    (hne : k' ≠ k) (v : V) (l : List (K × V)) :
    hmGet k' (hmInsert k v l) = hmGet k' l := by
  rw [hmInsert, hmGet_cons, if_neg (fun hh => hne hh.symm)]
  exact hmGet_filter_ne hne l

/-! Invariants of the database under insertion and loading. -/

theorem bool_eq_decide {b : Bool} {p : Prop} [Decidable p]
    (h : b = true ↔ p) : b = decide p := by
  by_cases hp : p
  · simp [hp, h.mpr hp]
  · rcases hb : b with _ | _
    · simp [hp]
    · exact absurd (h.mp hb) hp

theorem insert_WF {db : Database} (h : db.WF) (r : Datensatz) :
    (db.insert r).WF := by
  obtain ⟨h1, h2, h3, h4, h5, h6⟩ := h
  cases r <;>
    exact ⟨by first | exact btWF_insert lawful_land h1 _ _ | exact h1,
           by first | exact btWF_insert lawful_rb h2 _ _ | exact h2,
           by first | exact btWF_insert lawful_region h3 _ _ | exact h3,
           by first | exact btWF_insert lawful_kreis h4 _ _ | exact h4,
           by first | exact btWF_insert lawful_gv h5 _ _ | exact h5,
           by first | exact btWF_insert lawful_gem h6 _ _ | exact h6⟩

theorem empty_WF : Database.empty.WF := by
  refine ⟨?_, ?_, ?_, ?_, ?_, ?_⟩ <;> simp [Database.empty, btWF]

theorem foldl_insert_WF (rs : List Datensatz) :
    ∀ db : Database, db.WF → (rs.foldl Database.insert db).WF := by
  induction rs with
  | nil => intro db h; exact h
  | cons r rs ih =>
    intro db h
    exact ih (db.insert r) (insert_WF h r)

theorem ofList_WF (rs : List Datensatz) : (Database.ofList rs).WF :=
  foldl_insert_WF rs Database.empty empty_WF

theorem insert_KeysBounded {db : Database} (h : db.KeysBounded)
    {r : Datensatz} (hr : r.Bounded) : (db.insert r).KeysBounded := by
  obtain ⟨h1, h2, h3, h4, h5, h6⟩ := h
  cases r with
  | Land a =>
    refine ⟨?_, h2, h3, h4, h5, h6⟩
    intro kv hkv
    rcases btInsert_mem _ _ _ _ kv hkv with hh | hh
    · rw [hh]; exact hr
    · exact h1 kv hh
  | Regierungsbezirk a =>
    refine ⟨h1, ?_, h3, h4, h5, h6⟩
    intro kv hkv
    rcases btInsert_mem _ _ _ _ kv hkv with hh | hh
    · rw [hh]; exact hr
    · exact h2 kv hh
  | Region a =>
    refine ⟨h1, h2, ?_, h4, h5, h6⟩
    intro kv hkv
    rcases btInsert_mem _ _ _ _ kv hkv with hh | hh
    · rw [hh]; exact hr
    · exact h3 kv hh
  | Kreis a =>
    refine ⟨h1, h2, h3, ?_, h5, h6⟩
    intro kv hkv
    rcases btInsert_mem _ _ _ _ kv hkv with hh | hh
    · rw [hh]; exact hr
    · exact h4 kv hh
  | Gemeindeverband a =>
    refine ⟨h1, h2, h3, h4, ?_, h6⟩
    intro kv hkv
    rcases btInsert_mem _ _ _ _ kv hkv with hh | hh
    · rw [hh]; exact hr
    · exact h5 kv hh
  | Gemeinde a =>
    refine ⟨h1, h2, h3, h4, h5, ?_⟩
    intro kv hkv
    rcases btInsert_mem _ _ _ _ kv hkv with hh | hh
    · rw [hh]; exact hr
    · exact h6 kv hh

theorem empty_KeysBounded : Database.empty.KeysBounded := by
  refine ⟨?_, ?_, ?_, ?_, ?_, ?_⟩ <;> simp [Database.empty]

theorem foldl_insert_KeysBounded (rs : List Datensatz)
    (hrs : ∀ r ∈ rs, r.Bounded) :
    ∀ db : Database, db.KeysBounded →
      (rs.foldl Database.insert db).KeysBounded := by
  induction rs with
  | nil => intro db h; exact h
  | cons r rs ih =>
    intro db h
    exact ih (fun x hx => hrs x (List.mem_cons_of_mem _ hx)) (db.insert r)
      (insert_KeysBounded h (hrs r (List.mem_cons_self _ _)))

theorem ofList_KeysBounded {rs : List Datensatz}
    (hrs : ∀ r ∈ rs, r.Bounded) : (Database.ofList rs).KeysBounded :=
  foldl_insert_KeysBounded rs hrs Database.empty empty_KeysBounded

/-! Range characterizations: for a bounded descendant key x, membership
in the closed range produced by IntoRangeKey is equivalent to x
projecting onto the query key.  One lemma per IntoRangeKey impl. -/

theorem inRange_land_rb (k : LandSchluessel) (x : RegierungsbezirkSchluessel)
    (hb : x.Bounded) :
    ((RegierungsbezirkSchluessel.cmp k.rangeRegierungsbezirk.1 x).isLE &&
      (RegierungsbezirkSchluessel.cmp x k.rangeRegierungsbezirk.2).isLE) = true ↔
      x.toLand = k := by
  obtain ⟨hl, hr⟩ := hb
  simp only [LandSchluessel.rangeRegierungsbezirk,
    RegierungsbezirkSchluessel.new, RegierungsbezirkSchluessel.cmp,
    LandSchluessel.cmp, RegierungsbezirkSchluessel.toLand,
    Bool.and_eq_true, isLE_iff, Ordering.then_eq_lt, Ordering.then_eq_eq,
    Nat.compare_eq_lt, Nat.compare_eq_eq, land_eqIff]
  omega

theorem inRange_land_region (k : LandSchluessel) (x : RegionSchluessel)
    (hb : x.Bounded) :
    ((RegionSchluessel.cmp k.rangeRegion.1 x).isLE &&
      (RegionSchluessel.cmp x k.rangeRegion.2).isLE) = true ↔
      x.toLand = k := by
  obtain ⟨⟨hl, hr⟩, hg⟩ := hb
  simp only [LandSchluessel.rangeRegion, RegionSchluessel.new,
    RegierungsbezirkSchluessel.new, RegionSchluessel.cmp,
    RegierungsbezirkSchluessel.cmp, LandSchluessel.cmp,
    RegionSchluessel.toLand, RegierungsbezirkSchluessel.toLand,
    Bool.and_eq_true, isLE_iff, Ordering.then_eq_lt, Ordering.then_eq_eq,
    Nat.compare_eq_lt, Nat.compare_eq_eq, land_eqIff]
  omega

theorem inRange_land_kreis (k : LandSchluessel) (x : KreisSchluessel)
    (hb : x.Bounded) :
    ((KreisSchluessel.cmp k.rangeKreis.1 x).isLE &&
      (KreisSchluessel.cmp x k.rangeKreis.2).isLE) = true ↔
      x.toLand = k := by
  obtain ⟨⟨hl, hr⟩, hk⟩ := hb
  simp only [LandSchluessel.rangeKreis, KreisSchluessel.new,
    RegierungsbezirkSchluessel.new, KreisSchluessel.cmp,
    RegierungsbezirkSchluessel.cmp, LandSchluessel.cmp,
    KreisSchluessel.toLand, RegierungsbezirkSchluessel.toLand,
    Bool.and_eq_true, isLE_iff, Ordering.then_eq_lt, Ordering.then_eq_eq,
    Nat.compare_eq_lt, Nat.compare_eq_eq, land_eqIff]
  omega

theorem inRange_land_gv (k : LandSchluessel) (x : GemeindeverbandSchluessel)
    (hb : x.Bounded) :
    ((GemeindeverbandSchluessel.cmp k.rangeGemeindeverband.1 x).isLE &&
      (GemeindeverbandSchluessel.cmp x k.rangeGemeindeverband.2).isLE) = true ↔
      x.toLand = k := by
  obtain ⟨⟨⟨hl, hr⟩, hk⟩, hgv⟩ := hb
  simp only [LandSchluessel.rangeGemeindeverband,
    GemeindeverbandSchluessel.new, KreisSchluessel.new,
    RegierungsbezirkSchluessel.new, GemeindeverbandSchluessel.cmp,
    KreisSchluessel.cmp, RegierungsbezirkSchluessel.cmp, LandSchluessel.cmp,
    GemeindeverbandSchluessel.toLand, KreisSchluessel.toLand,
    RegierungsbezirkSchluessel.toLand,
    Bool.and_eq_true, isLE_iff, Ordering.then_eq_lt, Ordering.then_eq_eq,
    Nat.compare_eq_lt, Nat.compare_eq_eq, land_eqIff]
  omega

theorem inRange_land_gem (k : LandSchluessel) (x : GemeindeSchluessel)
    (hb : x.Bounded) :
    ((GemeindeSchluessel.cmp k.rangeGemeinde.1 x).isLE &&
      (GemeindeSchluessel.cmp x k.rangeGemeinde.2).isLE) = true ↔
      x.toLand = k := by
  obtain ⟨⟨⟨⟨hl, hr⟩, hk⟩, hgv⟩, hgm⟩ := hb
  simp only [LandSchluessel.rangeGemeinde, GemeindeSchluessel.new,
    GemeindeverbandSchluessel.new, KreisSchluessel.new,
    RegierungsbezirkSchluessel.new, GemeindeSchluessel.cmp,
    GemeindeverbandSchluessel.cmp, KreisSchluessel.cmp,
    RegierungsbezirkSchluessel.cmp, LandSchluessel.cmp,
    GemeindeSchluessel.toLand, GemeindeverbandSchluessel.toLand,
    KreisSchluessel.toLand, RegierungsbezirkSchluessel.toLand,
    Bool.and_eq_true, isLE_iff, Ordering.then_eq_lt, Ordering.then_eq_eq,
    Nat.compare_eq_lt, Nat.compare_eq_eq, land_eqIff]
  omega

theorem inRange_rb_region (k : RegierungsbezirkSchluessel)
    (x : RegionSchluessel) (hb : x.Bounded) :
    ((RegionSchluessel.cmp k.rangeRegion.1 x).isLE &&
      (RegionSchluessel.cmp x k.rangeRegion.2).isLE) = true ↔
      x.toRegierungsbezirk = k := by
  obtain ⟨⟨hl, hr⟩, hg⟩ := hb
  simp only [RegierungsbezirkSchluessel.rangeRegion, RegionSchluessel.new,
    RegionSchluessel.cmp, RegierungsbezirkSchluessel.cmp,
    LandSchluessel.cmp, RegionSchluessel.toRegierungsbezirk,
    Bool.and_eq_true, isLE_iff, Ordering.then_eq_lt, Ordering.then_eq_eq,
    Nat.compare_eq_lt, Nat.compare_eq_eq, rb_eqIff]
  omega

theorem inRange_rb_kreis (k : RegierungsbezirkSchluessel)
    (x : KreisSchluessel) (hb : x.Bounded) :
    ((KreisSchluessel.cmp k.rangeKreis.1 x).isLE &&
      (KreisSchluessel.cmp x k.rangeKreis.2).isLE) = true ↔
      x.toRegierungsbezirk = k := by
  obtain ⟨⟨hl, hr⟩, hk⟩ := hb
  simp only [RegierungsbezirkSchluessel.rangeKreis, KreisSchluessel.new,
    KreisSchluessel.cmp, RegierungsbezirkSchluessel.cmp,
    LandSchluessel.cmp, KreisSchluessel.toRegierungsbezirk,
    Bool.and_eq_true, isLE_iff, Ordering.then_eq_lt, Ordering.then_eq_eq,
    Nat.compare_eq_lt, Nat.compare_eq_eq, rb_eqIff]
  omega

theorem inRange_rb_gv (k : RegierungsbezirkSchluessel)
    (x : GemeindeverbandSchluessel) (hb : x.Bounded) :
    ((GemeindeverbandSchluessel.cmp k.rangeGemeindeverband.1 x).isLE &&
      (GemeindeverbandSchluessel.cmp x k.rangeGemeindeverband.2).isLE) = true ↔
      x.toRegierungsbezirk = k := by
  obtain ⟨⟨⟨hl, hr⟩, hk⟩, hgv⟩ := hb
  simp only [RegierungsbezirkSchluessel.rangeGemeindeverband,
    GemeindeverbandSchluessel.new, KreisSchluessel.new,
    GemeindeverbandSchluessel.cmp, KreisSchluessel.cmp,
    RegierungsbezirkSchluessel.cmp, LandSchluessel.cmp,
    GemeindeverbandSchluessel.toRegierungsbezirk,
    KreisSchluessel.toRegierungsbezirk,
    Bool.and_eq_true, isLE_iff, Ordering.then_eq_lt, Ordering.then_eq_eq,
    Nat.compare_eq_lt, Nat.compare_eq_eq, rb_eqIff]
  omega

theorem inRange_rb_gem (k : RegierungsbezirkSchluessel)
    (x : GemeindeSchluessel) (hb : x.Bounded) :
    ((GemeindeSchluessel.cmp k.rangeGemeinde.1 x).isLE &&
      (GemeindeSchluessel.cmp x k.rangeGemeinde.2).isLE) = true ↔
      x.toRegierungsbezirk = k := by
  obtain ⟨⟨⟨⟨hl, hr⟩, hk⟩, hgv⟩, hgm⟩ := hb
  simp only [RegierungsbezirkSchluessel.rangeGemeinde,
    GemeindeSchluessel.new, GemeindeverbandSchluessel.new,
    KreisSchluessel.new, GemeindeSchluessel.cmp,
    GemeindeverbandSchluessel.cmp, KreisSchluessel.cmp,
    RegierungsbezirkSchluessel.cmp, LandSchluessel.cmp,
    GemeindeSchluessel.toRegierungsbezirk,
    GemeindeverbandSchluessel.toRegierungsbezirk,
    KreisSchluessel.toRegierungsbezirk,
    Bool.and_eq_true, isLE_iff, Ordering.then_eq_lt, Ordering.then_eq_eq,
    Nat.compare_eq_lt, Nat.compare_eq_eq, rb_eqIff]
  omega

theorem inRange_kreis_gv (k : KreisSchluessel)
    (x : GemeindeverbandSchluessel) (hb : x.Bounded) :
    ((GemeindeverbandSchluessel.cmp k.rangeGemeindeverband.1 x).isLE &&
      (GemeindeverbandSchluessel.cmp x k.rangeGemeindeverband.2).isLE) = true ↔
      x.toKreis = k := by
  obtain ⟨⟨⟨hl, hr⟩, hk⟩, hgv⟩ := hb
  simp only [KreisSchluessel.rangeGemeindeverband,
    GemeindeverbandSchluessel.new, GemeindeverbandSchluessel.cmp,
    KreisSchluessel.cmp, RegierungsbezirkSchluessel.cmp,
    LandSchluessel.cmp, GemeindeverbandSchluessel.toKreis,
    Bool.and_eq_true, isLE_iff, Ordering.then_eq_lt, Ordering.then_eq_eq,
    Nat.compare_eq_lt, Nat.compare_eq_eq, kreis_eqIff]
  omega

theorem inRange_kreis_gem (k : KreisSchluessel) (x : GemeindeSchluessel)
    (hb : x.Bounded) :
    ((GemeindeSchluessel.cmp k.rangeGemeinde.1 x).isLE &&
      (GemeindeSchluessel.cmp x k.rangeGemeinde.2).isLE) = true ↔
      x.toKreis = k := by
  obtain ⟨⟨⟨⟨hl, hr⟩, hk⟩, hgv⟩, hgm⟩ := hb
  simp only [KreisSchluessel.rangeGemeinde, GemeindeSchluessel.new,
    GemeindeverbandSchluessel.new, GemeindeSchluessel.cmp,
    GemeindeverbandSchluessel.cmp, KreisSchluessel.cmp,
    RegierungsbezirkSchluessel.cmp, LandSchluessel.cmp,
    GemeindeSchluessel.toKreis, GemeindeverbandSchluessel.toKreis,
    Bool.and_eq_true, isLE_iff, Ordering.then_eq_lt, Ordering.then_eq_eq,
    Nat.compare_eq_lt, Nat.compare_eq_eq, kreis_eqIff]
  omega

theorem inRange_gv_gem (k : GemeindeverbandSchluessel)
    (x : GemeindeSchluessel) (hb : x.Bounded) :
    ((GemeindeSchluessel.cmp k.rangeGemeinde.1 x).isLE &&
      (GemeindeSchluessel.cmp x k.rangeGemeinde.2).isLE) = true ↔
      x.toGemeindeverband = k := by
  obtain ⟨⟨⟨⟨hl, hr⟩, hk⟩, hgv⟩, hgm⟩ := hb
  simp only [GemeindeverbandSchluessel.rangeGemeinde,
    GemeindeSchluessel.new, GemeindeSchluessel.cmp,
    GemeindeverbandSchluessel.cmp, KreisSchluessel.cmp,
    RegierungsbezirkSchluessel.cmp, LandSchluessel.cmp,
    GemeindeSchluessel.toGemeindeverband,
    Bool.and_eq_true, isLE_iff, Ordering.then_eq_lt, Ordering.then_eq_eq,
    Nat.compare_eq_lt, Nat.compare_eq_eq, gv_eqIff]
  omega

/-- Claim C1: for every database built by a finite sequence of inserts,
every query key of a coarser level (Land, Regierungsbezirk, Kreis or
Gemeindeverband; for the Region kind also those) and every descendant
kind with an IntoRangeKey instance, the children range scan returns
exactly the stored entries of that kind whose key components at the
query key's levels equal the query key's components — no entry with a
different prefix — and the result inherits the map's strictly ascending
key order.  One conjunct per IntoRangeKey/IterChildrenOf pairing of
src/db.rs, with the stored-entry set written as a filter of the kind's
map by prefix projection. -/
theorem claim_C1 (rs : List Datensatz) (hrs : ∀ r ∈ rs, r.Bounded) :
    (∀ k : LandSchluessel,
      (Database.ofList rs).iterChildrenRegierungsbezirk k.rangeRegierungsbezirk =
        (Database.ofList rs).regierungsbezirke.filter
          (fun kv => decide (kv.1.toLand = k)) ∧
      btWF RegierungsbezirkSchluessel.cmp
        ((Database.ofList rs).iterChildrenRegierungsbezirk k.rangeRegierungsbezirk)) ∧
    (∀ k : LandSchluessel,
      (Database.ofList rs).iterChildrenRegion k.rangeRegion =
        (Database.ofList rs).regionen.filter (fun kv => decide (kv.1.toLand = k)) ∧
      btWF RegionSchluessel.cmp
        ((Database.ofList rs).iterChildrenRegion k.rangeRegion)) ∧
    (∀ k : LandSchluessel,
      (Database.ofList rs).iterChildrenKreis k.rangeKreis =
        (Database.ofList rs).kreise.filter (fun kv => decide (kv.1.toLand = k)) ∧
      btWF KreisSchluessel.cmp
        ((Database.ofList rs).iterChildrenKreis k.rangeKreis)) ∧
    (∀ k : LandSchluessel,
      (Database.ofList rs).iterChildrenGemeindeverband k.rangeGemeindeverband =
        (Database.ofList rs).gemeindeverbaende.filter
          (fun kv => decide (kv.1.toLand = k)) ∧
      btWF GemeindeverbandSchluessel.cmp
        ((Database.ofList rs).iterChildrenGemeindeverband k.rangeGemeindeverband)) ∧
    (∀ k : LandSchluessel,
      (Database.ofList rs).iterChildrenGemeinde k.rangeGemeinde =
        (Database.ofList rs).gemeinden.filter (fun kv => decide (kv.1.toLand = k)) ∧
      btWF GemeindeSchluessel.cmp
        ((Database.ofList rs).iterChildrenGemeinde k.rangeGemeinde)) ∧
    (∀ k : RegierungsbezirkSchluessel,
      (Database.ofList rs).iterChildrenRegion k.rangeRegion =
        (Database.ofList rs).regionen.filter
          (fun kv => decide (kv.1.toRegierungsbezirk = k)) ∧
      btWF RegionSchluessel.cmp
        ((Database.ofList rs).iterChildrenRegion k.rangeRegion)) ∧
    (∀ k : RegierungsbezirkSchluessel,
      (Database.ofList rs).iterChildrenKreis k.rangeKreis =
        (Database.ofList rs).kreise.filter
          (fun kv => decide (kv.1.toRegierungsbezirk = k)) ∧
      btWF KreisSchluessel.cmp
        ((Database.ofList rs).iterChildrenKreis k.rangeKreis)) ∧
    (∀ k : RegierungsbezirkSchluessel,
      (Database.ofList rs).iterChildrenGemeindeverband k.rangeGemeindeverband =
        (Database.ofList rs).gemeindeverbaende.filter
          (fun kv => decide (kv.1.toRegierungsbezirk = k)) ∧
      btWF GemeindeverbandSchluessel.cmp
        ((Database.ofList rs).iterChildrenGemeindeverband k.rangeGemeindeverband)) ∧
    (∀ k : RegierungsbezirkSchluessel,
      (Database.ofList rs).iterChildrenGemeinde k.rangeGemeinde =
        (Database.ofList rs).gemeinden.filter
          (fun kv => decide (kv.1.toRegierungsbezirk = k)) ∧
      btWF GemeindeSchluessel.cmp
        ((Database.ofList rs).iterChildrenGemeinde k.rangeGemeinde)) ∧
    (∀ k : KreisSchluessel,
      (Database.ofList rs).iterChildrenGemeindeverband k.rangeGemeindeverband =
        (Database.ofList rs).gemeindeverbaende.filter
          (fun kv => decide (kv.1.toKreis = k)) ∧
      btWF GemeindeverbandSchluessel.cmp
        ((Database.ofList rs).iterChildrenGemeindeverband k.rangeGemeindeverband)) ∧
    (∀ k : KreisSchluessel,
      (Database.ofList rs).iterChildrenGemeinde k.rangeGemeinde =
        (Database.ofList rs).gemeinden.filter (fun kv => decide (kv.1.toKreis = k)) ∧
      btWF GemeindeSchluessel.cmp
        ((Database.ofList rs).iterChildrenGemeinde k.rangeGemeinde)) ∧
    (∀ k : GemeindeverbandSchluessel,
      (Database.ofList rs).iterChildrenGemeinde k.rangeGemeinde =
        (Database.ofList rs).gemeinden.filter
          (fun kv => decide (kv.1.toGemeindeverband = k)) ∧
      btWF GemeindeSchluessel.cmp
        ((Database.ofList rs).iterChildrenGemeinde k.rangeGemeinde)) := by
  obtain ⟨hw1, hw2, hw3, hw4, hw5, hw6⟩ := ofList_WF rs
  obtain ⟨hb1, hb2, hb3, hb4, hb5, hb6⟩ := ofList_KeysBounded hrs
  refine ⟨?_, ?_, ?_, ?_, ?_, ?_, ?_, ?_, ?_, ?_, ?_, ?_⟩ <;> intro k
  · exact ⟨List.filter_congr
      (fun kv hkv => bool_eq_decide (inRange_land_rb k kv.1 (hb2 kv hkv))),
      btWF_filter hw2 _⟩
  · exact ⟨List.filter_congr
      (fun kv hkv => bool_eq_decide (inRange_land_region k kv.1 (hb3 kv hkv))),
      btWF_filter hw3 _⟩
  · exact ⟨List.filter_congr
      (fun kv hkv => bool_eq_decide (inRange_land_kreis k kv.1 (hb4 kv hkv))),
      btWF_filter hw4 _⟩
  · exact ⟨List.filter_congr
      (fun kv hkv => bool_eq_decide (inRange_land_gv k kv.1 (hb5 kv hkv))),
      btWF_filter hw5 _⟩
  · exact ⟨List.filter_congr
      (fun kv hkv => bool_eq_decide (inRange_land_gem k kv.1 (hb6 kv hkv))),
      btWF_filter hw6 _⟩
  · exact ⟨List.filter_congr
      (fun kv hkv => bool_eq_decide (inRange_rb_region k kv.1 (hb3 kv hkv))),
      btWF_filter hw3 _⟩
  · exact ⟨List.filter_congr
      (fun kv hkv => bool_eq_decide (inRange_rb_kreis k kv.1 (hb4 kv hkv))),
      btWF_filter hw4 _⟩
  · exact ⟨List.filter_congr
      (fun kv hkv => bool_eq_decide (inRange_rb_gv k kv.1 (hb5 kv hkv))),
      btWF_filter hw5 _⟩
  · exact ⟨List.filter_congr
      (fun kv hkv => bool_eq_decide (inRange_rb_gem k kv.1 (hb6 kv hkv))),
      btWF_filter hw6 _⟩
  · exact ⟨List.filter_congr
      (fun kv hkv => bool_eq_decide (inRange_kreis_gv k kv.1 (hb5 kv hkv))),
      btWF_filter hw5 _⟩
  · exact ⟨List.filter_congr
      (fun kv hkv => bool_eq_decide (inRange_kreis_gem k kv.1 (hb6 kv hkv))),
      btWF_filter hw6 _⟩
  · exact ⟨List.filter_congr
      (fun kv hkv => bool_eq_decide (inRange_gv_gem k kv.1 (hb6 kv hkv))),
      btWF_filter hw6 _⟩

/-- Witness for claim C1 at the fixtures: all six records are bounded,
and the Gemeinde children scan of Kreis 10041 equals the prefix filter
of the Gemeinden map and is sorted. -/
theorem claim_C1_witness :
    (Datensatz.Land tLand10).Bounded ∧
    (Datensatz.Kreis tKreisDaten41).Bounded ∧
    (Datensatz.Kreis tKreisDaten42).Bounded ∧
    (Datensatz.Gemeinde tGem100).Bounded ∧
    (Datensatz.Gemeinde tGem511).Bounded ∧
    (Datensatz.Gemeinde tGem111).Bounded ∧
    ((Database.ofList tRecords).iterChildrenGemeinde tKreis41.rangeGemeinde =
      (Database.ofList tRecords).gemeinden.filter
        (fun kv => decide (kv.1.toKreis = tKreis41)) ∧
     btWF GemeindeSchluessel.cmp
       ((Database.ofList tRecords).iterChildrenGemeinde tKreis41.rangeGemeinde)) :=
  ⟨by decide, by decide, by decide, by decide, by decide, by decide,
   (claim_C1 tRecords (by decide)).2.2.2.2.2.2.2.2.2.2.1 tKreis41⟩

/-- Claim C7: looking the Land entity up with a Gemeinde-level key gives
the same result as looking it up with the projected Land key, for every
database; and the ancestor projections are total functions that compose
(dropping the trailing components one level at a time agrees with the
direct projection), so deriving any strict ancestor key never fails. -/
theorem claim_C7 (db : Database) (g : GemeindeSchluessel) :
    db.getLandByGemeinde g = db.getLandByLand g.toLand ∧
    g.toGemeindeverband = g.gemeindeverband ∧
    g.toKreis = g.toGemeindeverband.toKreis ∧
    g.toRegierungsbezirk = g.toKreis.toRegierungsbezirk ∧
    g.toLand = g.toRegierungsbezirk.toLand ∧
    db.getLandByRegierungsbezirk g.toRegierungsbezirk = db.getLandByLand g.toLand ∧
    db.getLandByKreis g.toKreis = db.getLandByLand g.toLand ∧
    db.getLandByGemeindeverband g.toGemeindeverband = db.getLandByLand g.toLand :=
  ⟨rfl, rfl, rfl, rfl, rfl, rfl, rfl, rfl⟩

/-- Claim C10: inserting a record of one entity kind rewrites only that
kind's map: the ordered maps of the five other kinds and the secondary
index are untouched, except that inserting a Gemeinde updates exactly
the Gemeinden map and the secondary
gemeindeverband index, leaving the five ordered maps of the
other kinds unchanged. -/
theorem claim_C10 (db : Database) :
    (∀ a : LandDaten,
      (db.insert (.Land a)).laender = btInsert LandSchluessel.cmp a.schluessel a db.laender ∧
      (db.insert (.Land a)).regierungsbezirke = db.regierungsbezirke ∧
      (db.insert (.Land a)).regionen = db.regionen ∧
      (db.insert (.Land a)).kreise = db.kreise ∧
      (db.insert (.Land a)).gemeindeverbaende = db.gemeindeverbaende ∧
      (db.insert (.Land a)).gemeinden = db.gemeinden ∧
      (db.insert (.Land a)).gemeindeverband_schluessel = db.gemeindeverband_schluessel) ∧
    (∀ a : RegierungsbezirkDaten,
      (db.insert (.Regierungsbezirk a)).regierungsbezirke =
        btInsert RegierungsbezirkSchluessel.cmp a.schluessel a db.regierungsbezirke ∧
      (db.insert (.Regierungsbezirk a)).laender = db.laender ∧
      (db.insert (.Regierungsbezirk a)).regionen = db.regionen ∧
      (db.insert (.Regierungsbezirk a)).kreise = db.kreise ∧
      (db.insert (.Regierungsbezirk a)).gemeindeverbaende = db.gemeindeverbaende ∧
      (db.insert (.Regierungsbezirk a)).gemeinden = db.gemeinden ∧
      (db.insert (.Regierungsbezirk a)).gemeindeverband_schluessel =
        db.gemeindeverband_schluessel) ∧
    (∀ a : RegionDaten,
      (db.insert (.Region a)).regionen =
        btInsert RegionSchluessel.cmp a.schluessel a db.regionen ∧
      (db.insert (.Region a)).laender = db.laender ∧
      (db.insert (.Region a)).regierungsbezirke = db.regierungsbezirke ∧
      (db.insert (.Region a)).kreise = db.kreise ∧
      (db.insert (.Region a)).gemeindeverbaende = db.gemeindeverbaende ∧
      (db.insert (.Region a)).gemeinden = db.gemeinden ∧
      (db.insert (.Region a)).gemeindeverband_schluessel = db.gemeindeverband_schluessel) ∧
    (∀ a : KreisDaten,
      (db.insert (.Kreis a)).kreise =
        btInsert KreisSchluessel.cmp a.schluessel a db.kreise ∧
      (db.insert (.Kreis a)).laender = db.laender ∧
      (db.insert (.Kreis a)).regierungsbezirke = db.regierungsbezirke ∧
      (db.insert (.Kreis a)).regionen = db.regionen ∧
      (db.insert (.Kreis a)).gemeindeverbaende = db.gemeindeverbaende ∧
      (db.insert (.Kreis a)).gemeinden = db.gemeinden ∧
      (db.insert (.Kreis a)).gemeindeverband_schluessel = db.gemeindeverband_schluessel) ∧
    (∀ a : GemeindeverbandDaten,
      (db.insert (.Gemeindeverband a)).gemeindeverbaende =
        btInsert GemeindeverbandSchluessel.cmp a.schluessel a db.gemeindeverbaende ∧
      (db.insert (.Gemeindeverband a)).laender = db.laender ∧
      (db.insert (.Gemeindeverband a)).regierungsbezirke = db.regierungsbezirke ∧
      (db.insert (.Gemeindeverband a)).regionen = db.regionen ∧
      (db.insert (.Gemeindeverband a)).kreise = db.kreise ∧
      (db.insert (.Gemeindeverband a)).gemeinden = db.gemeinden ∧
      (db.insert (.Gemeindeverband a)).gemeindeverband_schluessel =
        db.gemeindeverband_schluessel) ∧
    (∀ a : GemeindeDaten,
      (db.insert (.Gemeinde a)).gemeinden =
        btInsert GemeindeSchluessel.cmp a.schluessel a db.gemeinden ∧
      (db.insert (.Gemeinde a)).gemeindeverband_schluessel =
        hmInsert a.schluessel.toRegional a.schluessel.gemeindeverband.gemeindeverband
          db.gemeindeverband_schluessel ∧
      (db.insert (.Gemeinde a)).laender = db.laender ∧
      (db.insert (.Gemeinde a)).regierungsbezirke = db.regierungsbezirke ∧
      (db.insert (.Gemeinde a)).regionen = db.regionen ∧
      (db.insert (.Gemeinde a)).kreise = db.kreise ∧
      (db.insert (.Gemeinde a)).gemeindeverbaende = db.gemeindeverbaende) :=
  ⟨fun _ => ⟨rfl, rfl, rfl, rfl, rfl, rfl, rfl⟩,
   fun _ => ⟨rfl, rfl, rfl, rfl, rfl, rfl, rfl⟩,
   fun _ => ⟨rfl, rfl, rfl, rfl, rfl, rfl, rfl⟩,
   fun _ => ⟨rfl, rfl, rfl, rfl, rfl, rfl, rfl⟩,
   fun _ => ⟨rfl, rfl, rfl, rfl, rfl, rfl, rfl⟩,
   fun _ => ⟨rfl, rfl, rfl, rfl, rfl, rfl, rfl⟩⟩

/-- Claim C9: after inserting two records of the same entity kind with
equal keys, the key holds exactly one entry in that kind's map and a
lookup by it returns the second record. -/
theorem claim_C9 (db : Database) (hdb : db.WF) (r1 r2 : Datensatz)
    (h : r1.sameKey r2) : ((db.insert r1).insert r2).storedUniquely r2 := by
  obtain ⟨h1, h2, h3, h4, h5, h6⟩ := hdb
  cases r1 <;> cases r2 <;>
    first
      | exact h.elim
      | exact ⟨btGet_insert_self lawful_land _ _ _,
          btCountKey_insert lawful_land (btWF_insert lawful_land h1 _ _) _ _⟩
      | exact ⟨btGet_insert_self lawful_rb _ _ _,
          btCountKey_insert lawful_rb (btWF_insert lawful_rb h2 _ _) _ _⟩
      | exact ⟨btGet_insert_self lawful_region _ _ _,
          btCountKey_insert lawful_region (btWF_insert lawful_region h3 _ _) _ _⟩
      | exact ⟨btGet_insert_self lawful_kreis _ _ _,
          btCountKey_insert lawful_kreis (btWF_insert lawful_kreis h4 _ _) _ _⟩
      | exact ⟨btGet_insert_self lawful_gv _ _ _,
          btCountKey_insert lawful_gv (btWF_insert lawful_gv h5 _ _) _ _⟩
      | exact ⟨btGet_insert_self lawful_gem _ _ _,
          btCountKey_insert lawful_gem (btWF_insert lawful_gem h6 _ _) _ _⟩

/-- Witness for claim C9: loading the fixtures and then re-inserting
Land 10 with a changed name leaves one entry for key 10, holding the
second record. -/
theorem claim_C9_witness :
    (Database.ofList tRecords).WF ∧
    (Datensatz.Land tLand10).sameKey (Datensatz.Land tLand10b) ∧
    (((Database.ofList tRecords).insert (.Land tLand10)).insert
        (.Land tLand10b)).storedUniquely (.Land tLand10b) :=
  ⟨by decide, by decide,
   claim_C9 (Database.ofList tRecords) (by decide) (.Land tLand10)
     (.Land tLand10b) (by decide)⟩

/-! Projection round trips used for the compact municipality key. -/

theorem toRegional_to_gemeinde (k : GemeindeSchluessel) :
    k.toRegional.to_gemeinde_schluessel k.gemeindeverband.gemeindeverband = k := by
  obtain ⟨⟨kr, gvn⟩, gm⟩ := k
  rfl

theorem to_gemeinde_toRegional (rk : RegionalSchluessel) (gv : Nat) :
    (rk.to_gemeinde_schluessel gv).toRegional = rk := by
  obtain ⟨kr, gm⟩ := rk
  rfl

theorem ofList_append_singleton (rs : List Datensatz) (r : Datensatz) :
    Database.ofList (rs ++ [r]) = (Database.ofList rs).insert r := by
  simp [Database.ofList, List.foldl_append]

/-- Claim C8: the compact-key municipality lookup on a loaded database
succeeds exactly when some municipality whose canonical key projects to
the compact key was inserted; with no such municipality it returns
none — an Option in both the source and the model, so no error value
and no panic is involved. -/
theorem claim_C8 (rs : List Datensatz) (rk : RegionalSchluessel) :
    ((Database.ofList rs).getGemeindeByRegional rk).isSome = true ↔
      ∃ r ∈ rs, r.projectsTo rk := by
  induction rs using List.reverseRecOn with
  | nil =>
    simp [Database.ofList, Database.empty, Database.getGemeindeByRegional,
      Database.regional_to_gemeinde_schluessel, hmGet]
  | append_singleton rs r ih =>
    rw [ofList_append_singleton]
    have hmem : (∃ x ∈ rs ++ [r], x.projectsTo rk) ↔
        (∃ x ∈ rs, x.projectsTo rk) ∨ r.projectsTo rk := by
      simp [List.mem_append, or_and_right, exists_or]
    rw [hmem]
    cases r with
    | Gemeinde g =>
      by_cases hrk : g.schluessel.toRegional = rk
      · have hidx : hmGet rk ((Database.ofList rs).insert
            (.Gemeinde g)).gemeindeverband_schluessel =
            some g.schluessel.gemeindeverband.gemeindeverband := by
          rw [show ((Database.ofList rs).insert (.Gemeinde g)).gemeindeverband_schluessel =
            hmInsert g.schluessel.toRegional g.schluessel.gemeindeverband.gemeindeverband
              (Database.ofList rs).gemeindeverband_schluessel from rfl, hrk]
          exact hmGet_insert_self _ _ _
        have hkey : rk.to_gemeinde_schluessel g.schluessel.gemeindeverband.gemeindeverband =
            g.schluessel := by
          rw [← hrk]
          exact toRegional_to_gemeinde g.schluessel
        have hget : (((Database.ofList rs).insert
            (.Gemeinde g)).getGemeindeByRegional rk) = some g := by
          rw [Database.getGemeindeByRegional, Database.regional_to_gemeinde_schluessel,
            hidx]
          simp only [Option.map_some', Option.some_bind]
          rw [hkey,
            show ((Database.ofList rs).insert (.Gemeinde g)).gemeinden =
              btInsert GemeindeSchluessel.cmp g.schluessel g
                (Database.ofList rs).gemeinden from rfl]
          exact btGet_insert_self lawful_gem _ _ _
        rw [hget]
        simp [Datensatz.projectsTo, hrk]
      · have hne : rk ≠ g.schluessel.toRegional := fun hh => hrk hh.symm
        have hidx : hmGet rk ((Database.ofList rs).insert
            (.Gemeinde g)).gemeindeverband_schluessel =
            hmGet rk (Database.ofList rs).gemeindeverband_schluessel :=
          hmGet_insert_ne hne _ _
        rw [show (∃ x ∈ rs, x.projectsTo rk) ∨ (Datensatz.Gemeinde g).projectsTo rk ↔
            (∃ x ∈ rs, x.projectsTo rk) from by simp [Datensatz.projectsTo, hrk]]
        rw [← ih]
        rcases hold : hmGet rk (Database.ofList rs).gemeindeverband_schluessel with _ | gv
        · rw [Database.getGemeindeByRegional, Database.regional_to_gemeinde_schluessel,
            hidx, hold, Database.getGemeindeByRegional,
            Database.regional_to_gemeinde_schluessel, hold]
          simp
        · have hgne : GemeindeSchluessel.cmp (rk.to_gemeinde_schluessel gv)
              g.schluessel ≠ .eq := by
            intro hcontra
            have := (lawful_gem.eq_iff _ _).mp hcontra
            apply hrk
            rw [← this]
            exact (to_gemeinde_toRegional rk gv).symm
          have heq : (((Database.ofList rs).insert
              (.Gemeinde g)).getGemeindeByRegional rk) =
              (Database.ofList rs).getGemeindeByRegional rk := by
            rw [Database.getGemeindeByRegional, Database.regional_to_gemeinde_schluessel,
              hidx, hold, Database.getGemeindeByRegional,
              Database.regional_to_gemeinde_schluessel, hold]
            simp only [Option.map_some', Option.some_bind]
            rw [show ((Database.ofList rs).insert (.Gemeinde g)).gemeinden =
              btInsert GemeindeSchluessel.cmp g.schluessel g
                (Database.ofList rs).gemeinden from rfl]
            exact btGet_insert_ne lawful_gem hgne g _
          rw [heq]
    | Land a =>
      rw [show ((Database.ofList rs).insert (.Land a)).getGemeindeByRegional rk =
        (Database.ofList rs).getGemeindeByRegional rk from rfl, ih]
      simp [Datensatz.projectsTo]
    | Regierungsbezirk a =>
      rw [show ((Database.ofList rs).insert
        (.Regierungsbezirk a)).getGemeindeByRegional rk =
        (Database.ofList rs).getGemeindeByRegional rk from rfl, ih]
      simp [Datensatz.projectsTo]
    | Region a =>
      rw [show ((Database.ofList rs).insert (.Region a)).getGemeindeByRegional rk =
        (Database.ofList rs).getGemeindeByRegional rk from rfl, ih]
      simp [Datensatz.projectsTo]
    | Kreis a =>
      rw [show ((Database.ofList rs).insert (.Kreis a)).getGemeindeByRegional rk =
        (Database.ofList rs).getGemeindeByRegional rk from rfl, ih]
      simp [Datensatz.projectsTo]
    | Gemeindeverband a =>
      rw [show ((Database.ofList rs).insert
        (.Gemeindeverband a)).getGemeindeByRegional rk =
        (Database.ofList rs).getGemeindeByRegional rk from rfl, ih]
      simp [Datensatz.projectsTo]

/-! The field reader. -/

theorem splitAtBytes_cons (n : Nat) (c : Char) (cs : List Char)
    (h : 0 < n) :
    splitAtBytes n (c :: cs) =
      if c.utf8Size ≤ n then
        (splitAtBytes (n - c.utf8Size) cs).map (fun p => (c :: p.1, p.2))
      else none := by
  cases n with
  | zero => omega
  | succ m => rfl

theorem splitAtBytes_append (a b : List Char) :
    splitAtBytes (byteLen a) (a ++ b) = some (a, b) := by
  induction a with
  | nil => simp [byteLen, splitAtBytes]
  | cons c a ih =>
    have hpos : 0 < c.utf8Size := Char.utf8Size_pos c
    have hb : byteLen (c :: a) = c.utf8Size + byteLen a := by
      simp [byteLen]
    rw [show (c :: a) ++ b = c :: (a ++ b) from rfl, hb,
      splitAtBytes_cons _ _ _ (by omega), if_pos (by omega),
      show c.utf8Size + byteLen a - c.utf8Size = byteLen a from by omega, ih]
    rfl

theorem fieldNextLoop_eq (n : Nat) (cs : List Char) :
    fieldNextLoop n cs = (byteLen (cs.take n), cs.drop n) := by
  induction n generalizing cs with
  | zero => simp [fieldNextLoop, byteLen]
  | succ m ih =>
    cases cs with
    | nil => simp [fieldNextLoop, byteLen]
    | cons c cs => simp [fieldNextLoop, ih, byteLen]

/-- Claim C6: FieldReader::next(n) returns, without error or panic,
exactly the first min(n, remaining) characters of the remaining line
(counted as Unicode scalar values, not bytes) and advances the cursor
past exactly those characters; in particular with fewer than n
characters left it returns all of them. -/
theorem claim_C6 (n : Nat) (cs : List Char) :
    FieldReader.next n cs = (some (cs.take n), cs.drop n) ∧
    (cs.take n).length = min n cs.length := by
  constructor
  · have hsplit : splitAtBytes (byteLen (cs.take n)) cs =
        some (cs.take n, cs.drop n) := by
      nth_rewrite 2 [← List.take_append_drop n cs]
      exact splitAtBytes_append _ _
    unfold FieldReader.next
    rw [fieldNextLoop_eq]
    simp [hsplit]
  · simp [List.length_take]

/-! Character and decimal-string facts. -/

theorem isDigit_toNat {c : Char} (h : c.isDigit = true) :
    48 ≤ c.toNat ∧ c.toNat ≤ 57 := by
  unfold Char.isDigit at h
  simp [Char.le_def] at h
  exact h

theorem toNat_isDigit {c : Char} (h1 : 48 ≤ c.toNat) (h2 : c.toNat ≤ 57) :
    c.isDigit = true := by
  unfold Char.isDigit
  simp [Char.le_def]
  exact ⟨h1, h2⟩

theorem utf8Size_of_lt128 {c : Char} (h : c.toNat < 128) :
    c.utf8Size = 1 := by
  unfold Char.utf8Size
  have hle : c.val ≤ UInt32.ofNatCore 127 (by decide) := by
    rw [UInt32.le_def, BitVec.le_def]
    have hh : c.val.toBitVec.toNat = c.toNat := rfl
    have h2 : (UInt32.ofNatCore 127 (by decide)).toBitVec.toNat = 127 := rfl
    omega
  rw [if_pos hle]

theorem utf8Size_of_digit {c : Char} (h : c.isDigit = true) :
    c.utf8Size = 1 := by
  obtain ⟨_, h2⟩ := isDigit_toNat h
  exact utf8Size_of_lt128 (by omega)

theorem toNat_ofNat_valid {n : Nat} (h : Nat.isValidChar n) :
    (Char.ofNat n).toNat = n := by
  unfold Char.ofNat Char.toNat
  simp [Char.ofNatAux, h]
  rfl

theorem byteLen_eq_length {s : List Char} (h : ∀ c ∈ s, c.utf8Size = 1) :
    byteLen s = s.length := by
  induction s with
  | nil => rfl
  | cons c t ih =>
    have := h c (List.mem_cons_self _ _)
    simp [byteLen] at ih ⊢
    rw [this, ih (fun x hx => h x (List.mem_cons_of_mem _ hx))]
    omega

theorem splitAtBytes_ascii {s : List Char} (h : ∀ c ∈ s, c.utf8Size = 1)
    {k : Nat} (hk : k ≤ s.length) :
    splitAtBytes k s = some (s.take k, s.drop k) := by
  have hb : byteLen (s.take k) = k := by
    rw [byteLen_eq_length (fun c hc => h c ((List.take_sublist k s).mem hc))]
    simp [List.length_take]
    omega
  nth_rewrite 1 [← hb]
  nth_rewrite 2 [← List.take_append_drop k s]
  exact splitAtBytes_append _ _

theorem parseDigits_append_singleton (t : List Char) (c : Char) :
    parseDigits (t ++ [c]) = 10 * parseDigits t + charVal c := by
  simp [parseDigits, List.foldl_append]

theorem parseDigits_foldl_bound (t : List Char) (a : Nat)
    (h : ∀ c ∈ t, c.isDigit = true) :
    t.foldl (fun x c => 10 * x + charVal c) a < (a + 1) * 10 ^ t.length := by
  induction t generalizing a with
  | nil => simp
  | cons c t ih =>
    have hc : charVal c ≤ 9 := by
      obtain ⟨h1, h2⟩ := isDigit_toNat (h c (List.mem_cons_self _ _))
      unfold charVal
      omega
    have hstep := ih (10 * a + charVal c)
      (fun x hx => h x (List.mem_cons_of_mem _ hx))
    have hmul : (10 * a + charVal c + 1) * 10 ^ t.length ≤
        (a + 1) * 10 ^ (t.length + 1) := by
      rw [pow_succ]
      have : 10 * a + charVal c + 1 ≤ (a + 1) * 10 := by omega
      calc (10 * a + charVal c + 1) * 10 ^ t.length
          ≤ ((a + 1) * 10) * 10 ^ t.length := Nat.mul_le_mul_right _ this
        _ = (a + 1) * (10 ^ t.length * 10) := by ring
    calc (c :: t).foldl (fun x c => 10 * x + charVal c) a
        = t.foldl (fun x c => 10 * x + charVal c) (10 * a + charVal c) := rfl
      _ < (10 * a + charVal c + 1) * 10 ^ t.length := hstep
      _ ≤ (a + 1) * 10 ^ (t.length + 1) := hmul
      _ = (a + 1) * 10 ^ (c :: t).length := by rw [List.length_cons]

theorem parseDigits_lt {s : List Char} (h : ∀ c ∈ s, c.isDigit = true) :
    parseDigits s < 10 ^ s.length := by
  have := parseDigits_foldl_bound s 0 h
  simpa [parseDigits] using this

theorem foldl_parse_ge (t : List Char) (a : Nat) :
    a ≤ t.foldl (fun x c => 10 * x + charVal c) a := by
  induction t generalizing a with
  | nil => exact Nat.le_refl a
  | cons c t ih =>
    calc a ≤ 10 * a + charVal c := by omega
      _ ≤ t.foldl (fun x c => 10 * x + charVal c) (10 * a + charVal c) := ih _
      _ = (c :: t).foldl (fun x c => 10 * x + charVal c) a := rfl

theorem parseDigits_pos {c : Char} {t : List Char} (hd : c.isDigit = true)
    (hz : c ≠ '0') : 1 ≤ parseDigits (c :: t) := by
  have h48 : c.toNat ≠ 48 := by
    intro hc
    apply hz
    have := Char.ofNat_toNat c
    rw [hc] at this
    exact this.symm
  obtain ⟨h1, _⟩ := isDigit_toNat hd
  have hv : 1 ≤ charVal c := by unfold charVal; omega
  calc 1 ≤ charVal c := hv
    _ = 10 * 0 + charVal c := by omega
    _ ≤ parseDigits (c :: t) := foldl_parse_ge t _

theorem natToDecAux_fuel (f1 : Nat) : ∀ (f2 n : Nat), n < f1 → n < f2 →
    natToDecAux f1 n = natToDecAux f2 n := by
  induction f1 with
  | zero => intro f2 n h1; omega
  | succ g1 ih =>
    intro f2 n h1 h2
    cases f2 with
    | zero => omega
    | succ g2 =>
      by_cases hn : n < 10
      · simp [natToDecAux, hn]
      · have hdiv : n / 10 < n := Nat.div_lt_self (by omega) (by omega)
        simp only [natToDecAux, if_neg hn]
        rw [ih g2 (n / 10) (by omega) (by omega)]

theorem natToDec_lt10 {n : Nat} (h : n < 10) :
    natToDec n = [Char.ofNat (48 + n)] := by
  simp [natToDec, natToDecAux, h]

theorem natToDec_step {v d : Nat} (hv : 1 ≤ v) (hd : d ≤ 9) :
    natToDec (10 * v + d) = natToDec v ++ [Char.ofNat (48 + d)] := by
  have h10 : ¬(10 * v + d < 10) := by omega
  have hdiv : (10 * v + d) / 10 = v := by omega
  have hmod : (10 * v + d) % 10 = d := by omega
  unfold natToDec
  conv_lhs => rw [natToDecAux, if_neg h10, hdiv, hmod]
  rw [natToDecAux_fuel (10 * v + d) (v + 1) v (by omega) (by omega)]

theorem char_digit_roundtrip {c : Char} (h : c.isDigit = true) :
    Char.ofNat (48 + charVal c) = c := by
  obtain ⟨h1, _⟩ := isDigit_toNat h
  have : 48 + charVal c = c.toNat := by unfold charVal; omega
  rw [this, Char.ofNat_toNat]

theorem head?_append_left {t : List Char} (c : Char) (h : t ≠ []) :
    (t ++ [c]).head? = t.head? := by
  cases t with
  | nil => exact absurd rfl h
  | cons x xs => rfl

theorem natToDec_parseDigits {s : List Char}
    (hd : ∀ c ∈ s, c.isDigit = true) (hne : s ≠ [])
    (hz : s.head? ≠ some '0') : natToDec (parseDigits s) = s := by
  induction s using List.reverseRecOn with
  | nil => exact absurd rfl hne
  | append_singleton t c ih =>
    have hc : c.isDigit = true := hd c (by simp)
    have hct : ∀ x ∈ t, x.isDigit = true :=
      fun x hx => hd x (List.mem_append_left _ hx)
    have hcv : charVal c ≤ 9 := by
      obtain ⟨h1, h2⟩ := isDigit_toNat hc
      unfold charVal
      omega
    by_cases hte : t = []
    · subst hte
      have hv : parseDigits [c] = charVal c := by
        simp [parseDigits]
      rw [show ([] ++ [c]) = [c] from rfl, hv, natToDec_lt10 (by omega),
        char_digit_roundtrip hc]
    · have hzz : t.head? ≠ some '0' := by
        rw [← head?_append_left c hte]
        exact hz
      have hvpos : 1 ≤ parseDigits t := by
        cases t with
        | nil => exact absurd rfl hte
        | cons x xs =>
          have hx0 : x ≠ '0' := by simpa using hzz
          exact parseDigits_pos (hct x (by simp)) hx0
      rw [parseDigits_append_singleton, natToDec_step hvpos hcv,
        ih hct hte hzz, char_digit_roundtrip hc]

theorem padLeft_length (fill : Char) (w : Nat) (s : List Char) :
    (padLeft fill w s).length = max w s.length := by
  simp [padLeft]
  omega

theorem padLeft_of_length_eq {w : Nat} {s : List Char}
    (h : s.length = w) (fill : Char) : padLeft fill w s = s := by
  simp [padLeft, h]

theorem padZero_parseDigits {s : List Char}
    (hd : ∀ c ∈ s, c.isDigit = true) (hne : s ≠ []) :
    padLeft '0' s.length (natToDec (parseDigits s)) = s := by
  induction s with
  | nil => exact absurd rfl hne
  | cons c t ih =>
    by_cases hc0 : c = '0'
    · cases ht : t with
      | nil =>
        subst ht hc0
        have : parseDigits ['0'] = 0 := by
          simp [parseDigits, charVal]
        rw [this, natToDec_lt10 (by omega)]
        rfl
      | cons x xs =>
        rw [← ht]
        have htne : t ≠ [] := by rw [ht]; simp
        have hparse : parseDigits (c :: t) = parseDigits t := by
          subst hc0
          simp [parseDigits, charVal]
        have ihv := ih (fun x hx => hd x (List.mem_cons_of_mem _ hx)) htne
        have hlen : (natToDec (parseDigits t)).length ≤ t.length := by
          have := congrArg List.length ihv
          rw [padLeft_length] at this
          omega
        rw [hparse, show (c :: t).length = t.length + 1 from rfl]
        have hrep : padLeft '0' (t.length + 1) (natToDec (parseDigits t)) =
            '0' :: padLeft '0' t.length (natToDec (parseDigits t)) := by
          unfold padLeft
          rw [show t.length + 1 - (natToDec (parseDigits t)).length =
            (t.length - (natToDec (parseDigits t)).length) + 1 from by omega]
          rfl
        rw [hrep, ihv, hc0]
    · have hrt : natToDec (parseDigits (c :: t)) = c :: t :=
        natToDec_parseDigits hd hne (by simpa using hc0)
      rw [hrt]
      exact padLeft_of_length_eq rfl '0'

theorem padSpace_parseDigits {s : List Char}
    (hd : ∀ c ∈ s, c.isDigit = true) (hne : s ≠ [])
    (hz : s.head? ≠ some '0') :
    padLeft ' ' s.length (natToDec (parseDigits s)) = s := by
  rw [natToDec_parseDigits hd hne hz]
  exact padLeft_of_length_eq rfl ' '

/-! The Rust unsigned-integer parser on digit strings and on strings
holding a non-digit. -/

theorem head_not_plus {s : List Char} (h : ∀ c ∈ s, c ≠ '+') :
    ¬(s.head? = some '+') := by
  cases s with
  | nil => simp
  | cons c t =>
    simp only [List.head?_cons, Option.some_inj]
    exact h c (List.mem_cons_self _ _)

theorem rustParseNat_digits {m : Nat} {s : List Char}
    (hd : ∀ c ∈ s, c.isDigit = true) (hne : s ≠ [])
    (hm : parseDigits s ≤ m) : rustParseNat m s = some (parseDigits s) := by
  have hplus : ¬(s.head? = some '+') := by
    apply head_not_plus
    intro c hc hcp
    have := hd c hc
    rw [hcp] at this
    simp [Char.isDigit] at this
  simp only [rustParseNat, if_neg hplus]
  rw [if_neg (by simpa [List.isEmpty_iff] using hne),
    if_pos (List.all_eq_true.mpr hd), if_pos hm]

theorem rustParseNat_nondigit {m : Nat} {s : List Char}
    (hplus : ∀ c ∈ s, c ≠ '+') (hnd : s.all Char.isDigit = false) :
    rustParseNat m s = none := by
  have hne : s ≠ [] := by
    intro h
    rw [h] at hnd
    simp at hnd
  simp only [rustParseNat, if_neg (head_not_plus hplus)]
  rw [if_neg (by simpa [List.isEmpty_iff] using hne), if_neg (by simp [hnd])]

theorem digits_take {s : List Char} (hd : ∀ c ∈ s, c.isDigit = true)
    (n : Nat) : ∀ c ∈ s.take n, c.isDigit = true :=
  fun c hc => hd c ((List.take_sublist n s).mem hc)

theorem digits_drop {s : List Char} (hd : ∀ c ∈ s, c.isDigit = true)
    (n : Nat) : ∀ c ∈ s.drop n, c.isDigit = true :=
  fun c hc => hd c ((List.drop_sublist n s).mem hc)

theorem digits_byteLen {s : List Char} (hd : ∀ c ∈ s, c.isDigit = true) :
    byteLen s = s.length :=
  byteLen_eq_length (fun c hc => utf8Size_of_digit (hd c hc))

theorem digits_split {s : List Char} (hd : ∀ c ∈ s, c.isDigit = true)
    {k : Nat} (hk : k ≤ s.length) :
    splitAtBytes k s = some (s.take k, s.drop k) :=
  splitAtBytes_ascii (fun c hc => utf8Size_of_digit (hd c hc)) hk

/-! Parsing an all-digit string of the exact width succeeds with the
componentwise value, for each key type. -/

theorem land_parse {s : List Char} (hd : ∀ c ∈ s, c.isDigit = true)
    (hlen : s.length = 2) :
    LandSchluessel.from_str s = some (.ok (landOfDigits s)) := by
  have hne : s ≠ [] := by intro h; rw [h] at hlen; simp at hlen
  have hv : parseDigits s < 10 ^ 2 := hlen ▸ parseDigits_lt hd
  unfold LandSchluessel.from_str
  rw [if_neg (by rw [digits_byteLen hd, hlen]; omega),
    rustParseNat_digits hd hne (by omega)]
  rfl

theorem rb_parse {s : List Char} (hd : ∀ c ∈ s, c.isDigit = true)
    (hlen : s.length = 3) :
    RegierungsbezirkSchluessel.from_str s = some (.ok (rbOfDigits s)) := by
  have hdt := digits_take hd 2
  have hdd := digits_drop hd 2
  have hlt : (s.take 2).length = 2 := by simp [List.length_take]; omega
  have hld : (s.drop 2).length = 1 := by simp [List.length_drop]; omega
  have hne : s.drop 2 ≠ [] := by
    intro h; rw [h] at hld; simp at hld
  have hv : parseDigits (s.drop 2) < 10 ^ 1 := hld ▸ parseDigits_lt hdd
  unfold RegierungsbezirkSchluessel.from_str
  rw [if_neg (by rw [digits_byteLen hd, hlen]; omega),
    digits_split hd (by omega)]
  simp only [land_parse hdt hlt, rustParseNat_digits (m := 255) hdd hne (by omega)]
  rfl

theorem region_parse {s : List Char} (hd : ∀ c ∈ s, c.isDigit = true)
    (hlen : s.length = 4) :
    RegionSchluessel.from_str s = some (.ok (regionOfDigits s)) := by
  have hdt := digits_take hd 3
  have hdd := digits_drop hd 3
  have hlt : (s.take 3).length = 3 := by simp [List.length_take]; omega
  have hld : (s.drop 3).length = 1 := by simp [List.length_drop]; omega
  have hne : s.drop 3 ≠ [] := by
    intro h; rw [h] at hld; simp at hld
  have hv : parseDigits (s.drop 3) < 10 ^ 1 := hld ▸ parseDigits_lt hdd
  unfold RegionSchluessel.from_str
  rw [if_neg (by rw [digits_byteLen hd, hlen]; omega),
    digits_split hd (by omega)]
  simp only [rb_parse hdt hlt, rustParseNat_digits (m := 255) hdd hne (by omega)]
  rfl

theorem kreis_parse {s : List Char} (hd : ∀ c ∈ s, c.isDigit = true)
    (hlen : s.length = 5) :
    KreisSchluessel.from_str s = some (.ok (kreisOfDigits s)) := by
  have hdt := digits_take hd 3
  have hdd := digits_drop hd 3
  have hlt : (s.take 3).length = 3 := by simp [List.length_take]; omega
  have hld : (s.drop 3).length = 2 := by simp [List.length_drop]; omega
  have hne : s.drop 3 ≠ [] := by
    intro h; rw [h] at hld; simp at hld
  have hv : parseDigits (s.drop 3) < 10 ^ 2 := hld ▸ parseDigits_lt hdd
  unfold KreisSchluessel.from_str
  rw [if_neg (by rw [digits_byteLen hd, hlen]; omega),
    digits_split hd (by omega)]
  simp only [rb_parse hdt hlt, rustParseNat_digits (m := 255) hdd hne (by omega)]
  rfl

theorem gv_parse {s : List Char} (hd : ∀ c ∈ s, c.isDigit = true)
    (hlen : s.length = 9) :
    GemeindeverbandSchluessel.from_str s = some (.ok (gvOfDigits s)) := by
  have hdt := digits_take hd 5
  have hdd := digits_drop hd 5
  have hlt : (s.take 5).length = 5 := by simp [List.length_take]; omega
  have hld : (s.drop 5).length = 4 := by simp [List.length_drop]; omega
  have hne : s.drop 5 ≠ [] := by
    intro h; rw [h] at hld; simp at hld
  have hv : parseDigits (s.drop 5) < 10 ^ 4 := hld ▸ parseDigits_lt hdd
  unfold GemeindeverbandSchluessel.from_str
  rw [if_neg (by rw [digits_byteLen hd, hlen]; omega),
    digits_split hd (by omega)]
  simp only [kreis_parse hdt hlt, rustParseNat_digits (m := 65535) hdd hne (by omega)]
  rfl

theorem gem_parse {s : List Char} (hd : ∀ c ∈ s, c.isDigit = true)
    (hlen : s.length = 12) :
    GemeindeSchluessel.from_str s = some (.ok (gemOfDigits s)) := by
  have hdt := digits_take hd 9
  have hdd := digits_drop hd 9
  have hlt : (s.take 9).length = 9 := by simp [List.length_take]; omega
  have hld : (s.drop 9).length = 3 := by simp [List.length_drop]; omega
  have hne : s.drop 9 ≠ [] := by
    intro h; rw [h] at hld; simp at hld
  have hv : parseDigits (s.drop 9) < 10 ^ 3 := hld ▸ parseDigits_lt hdd
  unfold GemeindeSchluessel.from_str
  rw [if_neg (by rw [digits_byteLen hd, hlen]; omega),
    digits_split hd (by omega)]
  simp only [gv_parse hdt hlt, rustParseNat_digits (m := 65535) hdd hne (by omega)]
  rfl

theorem regional_parse {s : List Char} (hd : ∀ c ∈ s, c.isDigit = true)
    (hlen : s.length = 8) :
    RegionalSchluessel.from_str s = some (.ok (regionalOfDigits s)) := by
  have hdt := digits_take hd 5
  have hdd := digits_drop hd 5
  have hlt : (s.take 5).length = 5 := by simp [List.length_take]; omega
  have hld : (s.drop 5).length = 3 := by simp [List.length_drop]; omega
  have hne : s.drop 5 ≠ [] := by
    intro h; rw [h] at hld; simp at hld
  have hv : parseDigits (s.drop 5) < 10 ^ 3 := hld ▸ parseDigits_lt hdd
  unfold RegionalSchluessel.from_str
  rw [if_neg (by rw [digits_byteLen hd, hlen]; omega),
    digits_split hd (by omega)]
  simp only [kreis_parse hdt hlt, rustParseNat_digits (m := 65535) hdd hne (by omega)]
  rfl

/-! Display of the parsed keys: the Land component is zero-padded, a
width-1 component needs no padding, and the Kreis, Gemeindeverband and
Gemeinde components are space-padded, so those round-trip only when
their digit strings carry no leading zero. -/

theorem padOne_single {u : List Char} (hd : ∀ c ∈ u, c.isDigit = true)
    (hlen : u.length = 1) :
    padLeft ' ' 1 (natToDec (parseDigits u)) = u := by
  cases u with
  | nil => simp at hlen
  | cons c t =>
    have ht : t = [] := by simpa using hlen
    subst ht
    have hc := hd c (by simp)
    have hcv : charVal c ≤ 9 := by
      obtain ⟨h1, h2⟩ := isDigit_toNat hc
      unfold charVal
      omega
    have hv : parseDigits [c] = charVal c := by simp [parseDigits]
    rw [hv, natToDec_lt10 (by omega), char_digit_roundtrip hc]
    rfl

theorem head?_take {w : List Char} {n : Nat} (h : 1 ≤ n) :
    (w.take n).head? = w.head? := by
  cases w with
  | nil => simp
  | cons c t =>
    cases n with
    | zero => omega
    | succ m => rfl

theorem head?_take_drop (s : List Char) (i m : Nat) (h : 1 ≤ m - i) :
    ((s.take m).drop i).head? = (s.drop i).head? := by
  rw [List.drop_take]
  exact head?_take h

theorem land_display {s : List Char} (hd : ∀ c ∈ s, c.isDigit = true)
    (hlen : s.length = 2) : (landOfDigits s).display = s := by
  have hne : s ≠ [] := by intro h; rw [h] at hlen; simp at hlen
  show padLeft '0' 2 (natToDec (parseDigits s)) = s
  rw [← hlen]
  exact padZero_parseDigits hd hne

theorem rb_display {s : List Char} (hd : ∀ c ∈ s, c.isDigit = true)
    (hlen : s.length = 3) : (rbOfDigits s).display = s := by
  show (landOfDigits (s.take 2)).display ++
    padLeft ' ' 1 (natToDec (parseDigits (s.drop 2))) = s
  rw [land_display (digits_take hd 2) (by simp [List.length_take]; omega),
    padOne_single (digits_drop hd 2) (by simp [List.length_drop]; omega)]
  exact List.take_append_drop 2 s

theorem region_display {s : List Char} (hd : ∀ c ∈ s, c.isDigit = true)
    (hlen : s.length = 4) : (regionOfDigits s).display = s := by
  show (rbOfDigits (s.take 3)).display ++
    padLeft ' ' 1 (natToDec (parseDigits (s.drop 3))) = s
  rw [rb_display (digits_take hd 3) (by simp [List.length_take]; omega),
    padOne_single (digits_drop hd 3) (by simp [List.length_drop]; omega)]
  exact List.take_append_drop 3 s

theorem kreis_display {s : List Char} (hd : ∀ c ∈ s, c.isDigit = true)
    (hlen : s.length = 5) (hz : (s.drop 3).head? ≠ some '0') :
    (kreisOfDigits s).display = s := by
  have hld : (s.drop 3).length = 2 := by simp [List.length_drop]; omega
  have hne : s.drop 3 ≠ [] := by intro h; rw [h] at hld; simp at hld
  show (rbOfDigits (s.take 3)).display ++
    padLeft ' ' 2 (natToDec (parseDigits (s.drop 3))) = s
  rw [rb_display (digits_take hd 3) (by simp [List.length_take]; omega),
    ← hld, padSpace_parseDigits (digits_drop hd 3) hne hz]
  exact List.take_append_drop 3 s

theorem gv_display {s : List Char} (hd : ∀ c ∈ s, c.isDigit = true)
    (hlen : s.length = 9) (hz3 : (s.drop 3).head? ≠ some '0')
    (hz5 : (s.drop 5).head? ≠ some '0') :
    (gvOfDigits s).display = s := by
  have hld : (s.drop 5).length = 4 := by simp [List.length_drop]; omega
  have hne : s.drop 5 ≠ [] := by intro h; rw [h] at hld; simp at hld
  have hzt : ((s.take 5).drop 3).head? ≠ some '0' := by
    rw [head?_take_drop s 3 5 (by omega)]
    exact hz3
  show (kreisOfDigits (s.take 5)).display ++
    padLeft ' ' 4 (natToDec (parseDigits (s.drop 5))) = s
  rw [kreis_display (digits_take hd 5) (by simp [List.length_take]; omega) hzt,
    ← hld, padSpace_parseDigits (digits_drop hd 5) hne hz5]
  exact List.take_append_drop 5 s

theorem gem_display {s : List Char} (hd : ∀ c ∈ s, c.isDigit = true)
    (hlen : s.length = 12) (hz3 : (s.drop 3).head? ≠ some '0')
    (hz5 : (s.drop 5).head? ≠ some '0')
    (hz9 : (s.drop 9).head? ≠ some '0') :
    (gemOfDigits s).display = s := by
  have hld : (s.drop 9).length = 3 := by simp [List.length_drop]; omega
  have hne : s.drop 9 ≠ [] := by intro h; rw [h] at hld; simp at hld
  have hzt3 : ((s.take 9).drop 3).head? ≠ some '0' := by
    rw [head?_take_drop s 3 9 (by omega)]
    exact hz3
  have hzt5 : ((s.take 9).drop 5).head? ≠ some '0' := by
    rw [head?_take_drop s 5 9 (by omega)]
    exact hz5
  show (gvOfDigits (s.take 9)).display ++
    padLeft ' ' 3 (natToDec (parseDigits (s.drop 9))) = s
  rw [gv_display (digits_take hd 9) (by simp [List.length_take]; omega) hzt3 hzt5,
    ← hld, padSpace_parseDigits (digits_drop hd 9) hne hz9]
  exact List.take_append_drop 9 s

theorem regional_display {s : List Char} (hd : ∀ c ∈ s, c.isDigit = true)
    (hlen : s.length = 8) (hz3 : (s.drop 3).head? ≠ some '0')
    (hz5 : (s.drop 5).head? ≠ some '0') :
    (regionalOfDigits s).display = s := by
  have hld : (s.drop 5).length = 3 := by simp [List.length_drop]; omega
  have hne : s.drop 5 ≠ [] := by intro h; rw [h] at hld; simp at hld
  have hzt : ((s.take 5).drop 3).head? ≠ some '0' := by
    rw [head?_take_drop s 3 5 (by omega)]
    exact hz3
  show (kreisOfDigits (s.take 5)).display ++
    padLeft ' ' 3 (natToDec (parseDigits (s.drop 5))) = s
  rw [kreis_display (digits_take hd 5) (by simp [List.length_take]; omega) hzt,
    ← hld, padSpace_parseDigits (digits_drop hd 5) hne hz5]
  exact List.take_append_drop 5 s

/-- Counterexample to claim C2 as stated: the 5-digit Kreis key string
10105 parses, but Display space-pads the Kreis component ({:2}, not
{:02}), printing 101 5 instead of the zero-padded 10105. -/
theorem claim_C2_counterexample :
    KreisSchluessel.from_str ['1', '0', '1', '0', '5'] =
      some (.ok (KreisSchluessel.new
        (RegierungsbezirkSchluessel.new (LandSchluessel.new 10) 1) 5)) ∧
    (KreisSchluessel.new
      (RegierungsbezirkSchluessel.new (LandSchluessel.new 10) 1) 5).display =
      ['1', '0', '1', ' ', '5'] ∧
    ['1', '0', '1', ' ', '5'] ≠ ['1', '0', '1', '0', '5'] := by
  refine ⟨by decide, ?_, by decide⟩
  show padLeft '0' 2 (natToDec 10) ++ padLeft ' ' 1 (natToDec 1) ++
    padLeft ' ' 2 (natToDec 5) = ['1', '0', '1', ' ', '5']
  decide

/-- Claim C2, amended: for an all-digit string of a key type's exact
length, parsing succeeds with the componentwise value, and
Display-formatting the parsed key reproduces the string for
LandSchluessel, RegierungsbezirkSchluessel and RegionSchluessel
unconditionally; for KreisSchluessel, GemeindeverbandSchluessel,
GemeindeSchluessel and RegionalSchluessel the Kreis (width 2),
Gemeindeverband (width 4) and Gemeinde (width 3) components are
space-padded rather than zero-padded, so the round trip holds exactly
under the stated no-leading-zero conditions on those component
substrings. -/
theorem claim_C2 (s : List Char) (hd : ∀ c ∈ s, c.isDigit = true) :
    (s.length = 2 → LandSchluessel.from_str s = some (.ok (landOfDigits s)) ∧
      (landOfDigits s).display = s) ∧
    (s.length = 3 →
      RegierungsbezirkSchluessel.from_str s = some (.ok (rbOfDigits s)) ∧
      (rbOfDigits s).display = s) ∧
    (s.length = 4 → RegionSchluessel.from_str s = some (.ok (regionOfDigits s)) ∧
      (regionOfDigits s).display = s) ∧
    (s.length = 5 → KreisSchluessel.from_str s = some (.ok (kreisOfDigits s)) ∧
      ((s.drop 3).head? ≠ some '0' → (kreisOfDigits s).display = s)) ∧
    (s.length = 9 →
      GemeindeverbandSchluessel.from_str s = some (.ok (gvOfDigits s)) ∧
      ((s.drop 3).head? ≠ some '0' → (s.drop 5).head? ≠ some '0' →
        (gvOfDigits s).display = s)) ∧
    (s.length = 12 → GemeindeSchluessel.from_str s = some (.ok (gemOfDigits s)) ∧
      ((s.drop 3).head? ≠ some '0' → (s.drop 5).head? ≠ some '0' →
        (s.drop 9).head? ≠ some '0' → (gemOfDigits s).display = s)) ∧
    (s.length = 8 →
      RegionalSchluessel.from_str s = some (.ok (regionalOfDigits s)) ∧
      ((s.drop 3).head? ≠ some '0' → (s.drop 5).head? ≠ some '0' →
        (regionalOfDigits s).display = s)) := by
  refine ⟨fun h => ⟨land_parse hd h, land_display hd h⟩,
    fun h => ⟨rb_parse hd h, rb_display hd h⟩,
    fun h => ⟨region_parse hd h, region_display hd h⟩,
    fun h => ⟨kreis_parse hd h, fun hz => kreis_display hd h hz⟩,
    fun h => ⟨gv_parse hd h, fun hz3 hz5 => gv_display hd h hz3 hz5⟩,
    fun h => ⟨gem_parse hd h, fun hz3 hz5 hz9 => gem_display hd h hz3 hz5 hz9⟩,
    fun h => ⟨regional_parse hd h, fun hz3 hz5 => regional_display hd h hz3 hz5⟩⟩

/-- Witness for the amended claim C2 at the Gemeinde key 100411000100:
all characters are digits, and parse plus display reproduce the input
because the space-padded components have no leading zeros... the
Gemeinde component here is 100, Kreis 41, Gemeindeverband 1000. -/
theorem claim_C2_witness :
    (∀ c ∈ ['1', '0', '0', '4', '1', '1', '0', '0', '0', '1', '0', '0'],
      c.isDigit = true) ∧
    (['1', '0', '0', '4', '1', '1', '0', '0', '0', '1', '0', '0'] :
      List Char).length = 12 ∧
    GemeindeSchluessel.from_str
      ['1', '0', '0', '4', '1', '1', '0', '0', '0', '1', '0', '0'] =
      some (.ok (gemOfDigits
        ['1', '0', '0', '4', '1', '1', '0', '0', '0', '1', '0', '0'])) ∧
    (gemOfDigits ['1', '0', '0', '4', '1', '1', '0', '0', '0', '1', '0', '0']).display =
      ['1', '0', '0', '4', '1', '1', '0', '0', '0', '1', '0', '0'] :=
  ⟨by decide, by decide,
   ((claim_C2 _ (by decide)).2.2.2.2.2.1 (by decide)).1,
   ((claim_C2 _ (by decide)).2.2.2.2.2.1 (by decide)).2 (by decide) (by decide)
     (by decide)⟩

/-! Parsing a string of the right width that contains a non-digit.  The
plus sign is excluded because Rust unsigned parsing accepts a leading
plus; non-ASCII characters are excluded because byte slicing at a fixed
index can split a multi-byte character and panic. -/

theorem mem_take_of {α : Type} {P : α → Prop} {s : List α}
    (h : ∀ c ∈ s, P c) (n : Nat) : ∀ c ∈ s.take n, P c :=
  fun c hc => h c ((List.take_sublist n s).mem hc)

theorem mem_drop_of {α : Type} {P : α → Prop} {s : List α}
    (h : ∀ c ∈ s, P c) (n : Nat) : ∀ c ∈ s.drop n, P c :=
  fun c hc => h c ((List.drop_sublist n s).mem hc)

theorem all_drop_eq_false {s : List Char} {k : Nat}
    (hnd : s.all Char.isDigit = false)
    (ha : (s.take k).all Char.isDigit = true) :
    (s.drop k).all Char.isDigit = false := by
  rw [← List.take_append_drop k s, List.all_append, ha, Bool.true_and] at hnd
  exact hnd

theorem land_nonnum {s : List Char} (hplus : ∀ c ∈ s, c ≠ '+')
    (hnd : s.all Char.isDigit = false) (hlen : byteLen s = 2) :
    LandSchluessel.from_str s = some (.error (.NonNumeric s)) := by
  unfold LandSchluessel.from_str
  rw [if_neg (by omega), rustParseNat_nondigit hplus hnd]
  rfl

theorem rb_nonnum {s : List Char} (hA : ∀ c ∈ s, c.utf8Size = 1)
    (hplus : ∀ c ∈ s, c ≠ '+') (hnd : s.all Char.isDigit = false)
    (hlen : byteLen s = 3) :
    ∃ t, RegierungsbezirkSchluessel.from_str s =
      some (.error (.NonNumeric t)) := by
  have hsl : s.length = 3 := by rw [← byteLen_eq_length hA]; exact hlen
  have hsplit := splitAtBytes_ascii hA (k := 2) (by omega)
  have hbt : byteLen (s.take 2) = 2 := by
    rw [byteLen_eq_length (mem_take_of hA 2)]
    simp [List.length_take]
    omega
  unfold RegierungsbezirkSchluessel.from_str
  rw [if_neg (by omega), hsplit]
  by_cases ha : (s.take 2).all Char.isDigit = true
  · have hbd := all_drop_eq_false hnd ha
    refine ⟨s, ?_⟩
    simp only [land_parse (List.all_eq_true.mp ha)
        (by simp [List.length_take]; omega),
      rustParseNat_nondigit (mem_drop_of hplus 2) hbd]
    rfl
  · refine ⟨s.take 2, ?_⟩
    simp only [land_nonnum (mem_take_of hplus 2) (Bool.eq_false_iff.mpr ha) hbt]

theorem region_nonnum {s : List Char} (hA : ∀ c ∈ s, c.utf8Size = 1)
    (hplus : ∀ c ∈ s, c ≠ '+') (hnd : s.all Char.isDigit = false)
    (hlen : byteLen s = 4) :
    ∃ t, RegionSchluessel.from_str s = some (.error (.NonNumeric t)) := by
  have hsl : s.length = 4 := by rw [← byteLen_eq_length hA]; exact hlen
  have hsplit := splitAtBytes_ascii hA (k := 3) (by omega)
  have hbt : byteLen (s.take 3) = 3 := by
    rw [byteLen_eq_length (mem_take_of hA 3)]
    simp [List.length_take]
    omega
  unfold RegionSchluessel.from_str
  rw [if_neg (by omega), hsplit]
  by_cases ha : (s.take 3).all Char.isDigit = true
  · have hbd := all_drop_eq_false hnd ha
    refine ⟨s, ?_⟩
    simp only [rb_parse (List.all_eq_true.mp ha)
        (by simp [List.length_take]; omega),
      rustParseNat_nondigit (mem_drop_of hplus 3) hbd]
    rfl
  · obtain ⟨t, ht⟩ := rb_nonnum (mem_take_of hA 3) (mem_take_of hplus 3)
      (Bool.eq_false_iff.mpr ha) hbt
    refine ⟨t, ?_⟩
    simp only [ht]

theorem kreis_nonnum {s : List Char} (hA : ∀ c ∈ s, c.utf8Size = 1)
    (hplus : ∀ c ∈ s, c ≠ '+') (hnd : s.all Char.isDigit = false)
    (hlen : byteLen s = 5) :
    ∃ t, KreisSchluessel.from_str s = some (.error (.NonNumeric t)) := by
  have hsl : s.length = 5 := by rw [← byteLen_eq_length hA]; exact hlen
  have hsplit := splitAtBytes_ascii hA (k := 3) (by omega)
  have hbt : byteLen (s.take 3) = 3 := by
    rw [byteLen_eq_length (mem_take_of hA 3)]
    simp [List.length_take]
    omega
  unfold KreisSchluessel.from_str
  rw [if_neg (by omega), hsplit]
  by_cases ha : (s.take 3).all Char.isDigit = true
  · have hbd := all_drop_eq_false hnd ha
    refine ⟨s, ?_⟩
    simp only [rb_parse (List.all_eq_true.mp ha)
        (by simp [List.length_take]; omega),
      rustParseNat_nondigit (mem_drop_of hplus 3) hbd]
    rfl
  · obtain ⟨t, ht⟩ := rb_nonnum (mem_take_of hA 3) (mem_take_of hplus 3)
      (Bool.eq_false_iff.mpr ha) hbt
    refine ⟨t, ?_⟩
    simp only [ht]

theorem gv_nonnum {s : List Char} (hA : ∀ c ∈ s, c.utf8Size = 1)
    (hplus : ∀ c ∈ s, c ≠ '+') (hnd : s.all Char.isDigit = false)
    (hlen : byteLen s = 9) :
    ∃ t, GemeindeverbandSchluessel.from_str s =
      some (.error (.NonNumeric t)) := by
  have hsl : s.length = 9 := by rw [← byteLen_eq_length hA]; exact hlen
  have hsplit := splitAtBytes_ascii hA (k := 5) (by omega)
  have hbt : byteLen (s.take 5) = 5 := by
    rw [byteLen_eq_length (mem_take_of hA 5)]
    simp [List.length_take]
    omega
  unfold GemeindeverbandSchluessel.from_str
  rw [if_neg (by omega), hsplit]
  by_cases ha : (s.take 5).all Char.isDigit = true
  · have hbd := all_drop_eq_false hnd ha
    refine ⟨s, ?_⟩
    simp only [kreis_parse (List.all_eq_true.mp ha)
        (by simp [List.length_take]; omega),
      rustParseNat_nondigit (mem_drop_of hplus 5) hbd]
    rfl
  · obtain ⟨t, ht⟩ := kreis_nonnum (mem_take_of hA 5) (mem_take_of hplus 5)
      (Bool.eq_false_iff.mpr ha) hbt
    refine ⟨t, ?_⟩
    simp only [ht]

theorem gem_nonnum {s : List Char} (hA : ∀ c ∈ s, c.utf8Size = 1)
    (hplus : ∀ c ∈ s, c ≠ '+') (hnd : s.all Char.isDigit = false)
    (hlen : byteLen s = 12) :
    ∃ t, GemeindeSchluessel.from_str s = some (.error (.NonNumeric t)) := by
  have hsl : s.length = 12 := by rw [← byteLen_eq_length hA]; exact hlen
  have hsplit := splitAtBytes_ascii hA (k := 9) (by omega)
  have hbt : byteLen (s.take 9) = 9 := by
    rw [byteLen_eq_length (mem_take_of hA 9)]
    simp [List.length_take]
    omega
  unfold GemeindeSchluessel.from_str
  rw [if_neg (by omega), hsplit]
  by_cases ha : (s.take 9).all Char.isDigit = true
  · have hbd := all_drop_eq_false hnd ha
    refine ⟨s, ?_⟩
    simp only [gv_parse (List.all_eq_true.mp ha)
        (by simp [List.length_take]; omega),
      rustParseNat_nondigit (mem_drop_of hplus 9) hbd]
    rfl
  · obtain ⟨t, ht⟩ := gv_nonnum (mem_take_of hA 9) (mem_take_of hplus 9)
      (Bool.eq_false_iff.mpr ha) hbt
    refine ⟨t, ?_⟩
    simp only [ht]

theorem regional_nonnum {s : List Char} (hA : ∀ c ∈ s, c.utf8Size = 1)
    (hplus : ∀ c ∈ s, c ≠ '+') (hnd : s.all Char.isDigit = false)
    (hlen : byteLen s = 8) :
    ∃ t, RegionalSchluessel.from_str s = some (.error (.NonNumeric t)) := by
  have hsl : s.length = 8 := by rw [← byteLen_eq_length hA]; exact hlen
  have hsplit := splitAtBytes_ascii hA (k := 5) (by omega)
  have hbt : byteLen (s.take 5) = 5 := by
    rw [byteLen_eq_length (mem_take_of hA 5)]
    simp [List.length_take]
    omega
  unfold RegionalSchluessel.from_str
  rw [if_neg (by omega), hsplit]
  by_cases ha : (s.take 5).all Char.isDigit = true
  · have hbd := all_drop_eq_false hnd ha
    refine ⟨s, ?_⟩
    simp only [kreis_parse (List.all_eq_true.mp ha)
        (by simp [List.length_take]; omega),
      rustParseNat_nondigit (mem_drop_of hplus 5) hbd]
    rfl
  · obtain ⟨t, ht⟩ := kreis_nonnum (mem_take_of hA 5) (mem_take_of hplus 5)
      (Bool.eq_false_iff.mpr ha) hbt
    refine ⟨t, ?_⟩
    simp only [ht]

/-- Counterexample to claim C4 as stated: the string +5 has the exact
length of a Land key and contains the non-digit plus sign, yet parsing
SUCCEEDS with the value 5, because Rust unsigned-integer parsing accepts
an optional leading plus sign. -/
theorem claim_C4_counterexample :
    byteLen ['+', '5'] = 2 ∧ ('+' : Char).isDigit = false ∧
    LandSchluessel.from_str ['+', '5'] =
      some (.ok (LandSchluessel.new 5)) := by
  refine ⟨by decide, by decide, ?_⟩
  rfl

/-- Claim C4, amended: for every key type and every string of the exact
expected byte length whose characters are all single-byte (ASCII), that
contains at least one character that is not a decimal digit and no plus
sign, parsing returns ParseKeyError::NonNumeric; it never succeeds and
never panics.  (With a leading plus sign parsing can succeed, and a
multi-byte character can make the byte slicing panic, which is why the
amendment restricts both.) -/
theorem claim_C4 (s : List Char) (hA : ∀ c ∈ s, c.utf8Size = 1)
    (hplus : ∀ c ∈ s, c ≠ '+') (hnd : s.all Char.isDigit = false) :
    (byteLen s = 2 →
      LandSchluessel.from_str s = some (.error (.NonNumeric s))) ∧
    (byteLen s = 3 →
      ∃ t, RegierungsbezirkSchluessel.from_str s =
        some (.error (.NonNumeric t))) ∧
    (byteLen s = 4 →
      ∃ t, RegionSchluessel.from_str s = some (.error (.NonNumeric t))) ∧
    (byteLen s = 5 →
      ∃ t, KreisSchluessel.from_str s = some (.error (.NonNumeric t))) ∧
    (byteLen s = 9 →
      ∃ t, GemeindeverbandSchluessel.from_str s =
        some (.error (.NonNumeric t))) ∧
    (byteLen s = 12 →
      ∃ t, GemeindeSchluessel.from_str s = some (.error (.NonNumeric t))) ∧
    (byteLen s = 8 →
      ∃ t, RegionalSchluessel.from_str s = some (.error (.NonNumeric t))) :=
  ⟨fun h => land_nonnum hplus hnd h,
   fun h => rb_nonnum hA hplus hnd h,
   fun h => region_nonnum hA hplus hnd h,
   fun h => kreis_nonnum hA hplus hnd h,
   fun h => gv_nonnum hA hplus hnd h,
   fun h => gem_nonnum hA hplus hnd h,
   fun h => regional_nonnum hA hplus hnd h⟩

/-- Witness for the amended claim C4 at the Kreis-length string 1a105:
ASCII, no plus sign, one non-digit, and parsing reports NonNumeric. -/
theorem claim_C4_witness :
    (∀ c ∈ ['1', 'a', '1', '0', '5'], c.utf8Size = 1) ∧
    (∀ c ∈ ['1', 'a', '1', '0', '5'], c ≠ '+') ∧
    (['1', 'a', '1', '0', '5'].all Char.isDigit = false) ∧
    byteLen ['1', 'a', '1', '0', '5'] = 5 ∧
    (∃ t, KreisSchluessel.from_str ['1', 'a', '1', '0', '5'] =
      some (.error (.NonNumeric t))) :=
  ⟨by decide, by decide, by decide, by decide,
   (claim_C4 ['1', 'a', '1', '0', '5'] (by decide) (by decide)
     (by decide)).2.2.2.1 (by decide)⟩

/-- Claim C5: for every key type, parsing a string whose byte length
differs from the expected width returns
ParseKeyError::InvalidLength carrying the expected width, the string's
actual byte length, and the offending string itself, for all seven key
types at once. -/
theorem claim_C5 (s : List Char) :
    (byteLen s ≠ 2 → LandSchluessel.from_str s =
      some (.error (.InvalidLength 2 (byteLen s) s))) ∧
    (byteLen s ≠ 3 → RegierungsbezirkSchluessel.from_str s =
      some (.error (.InvalidLength 3 (byteLen s) s))) ∧
    (byteLen s ≠ 4 → RegionSchluessel.from_str s =
      some (.error (.InvalidLength 4 (byteLen s) s))) ∧
    (byteLen s ≠ 5 → KreisSchluessel.from_str s =
      some (.error (.InvalidLength 5 (byteLen s) s))) ∧
    (byteLen s ≠ 9 → GemeindeverbandSchluessel.from_str s =
      some (.error (.InvalidLength 9 (byteLen s) s))) ∧
    (byteLen s ≠ 12 → GemeindeSchluessel.from_str s =
      some (.error (.InvalidLength 12 (byteLen s) s))) ∧
    (byteLen s ≠ 8 → RegionalSchluessel.from_str s =
      some (.error (.InvalidLength 8 (byteLen s) s))) := by
  refine ⟨fun h => ?_, fun h => ?_, fun h => ?_, fun h => ?_, fun h => ?_,
    fun h => ?_, fun h => ?_⟩
  · rw [LandSchluessel.from_str, if_pos h]; rfl
  · rw [RegierungsbezirkSchluessel.from_str, if_pos h]; rfl
  · rw [RegionSchluessel.from_str, if_pos h]; rfl
  · rw [KreisSchluessel.from_str, if_pos h]; rfl
  · rw [GemeindeverbandSchluessel.from_str, if_pos h]; rfl
  · rw [GemeindeSchluessel.from_str, if_pos h]; rfl
  · rw [RegionalSchluessel.from_str, if_pos h]; rfl

/-- Witness for claim C5 at the one-byte string x, whose length differs
from all seven expected widths at once. -/
theorem claim_C5_witness :
    byteLen ['x'] ≠ 2 ∧ byteLen ['x'] ≠ 12 ∧
    LandSchluessel.from_str ['x'] =
      some (.error (.InvalidLength 2 (byteLen ['x']) ['x'])) ∧
    GemeindeSchluessel.from_str ['x'] =
      some (.error (.InvalidLength 12 (byteLen ['x']) ['x'])) :=
  ⟨by decide, by decide, (claim_C5 ['x']).1 (by decide),
   (claim_C5 ['x']).2.2.2.2.2.1 (by decide)⟩

/-- Claim C3 describes the intended behaviour, but the code panics on
two of the three malformed-date shapes: parse_date slices s[0..4],
s[4..6] and s[6..8] without a length check, so a date field shorter
than 8 bytes hits an out-of-range byte index (modelled none = panic),
and it calls the panicking chrono NaiveDate::from_ymd, so an 8-digit
field that is not a valid calendar date (such as 20210230, February
30th) panics instead of returning an error.  Only the non-numeric case
(such as 2O210230) returns the numeric-parse error the claim and the
spec require; a well-formed date succeeds. -/
theorem claim_C3_code_bug :
    parse_date ['2', '0', '2', '1', '0', '2', '3', '0'] = none ∧
    parse_date ['2', '0', '2', '1'] = none ∧
    parse_date [] = none ∧
    parse_date ['2', 'O', '2', '1', '0', '2', '3', '0'] =
      some (.error .ParseInt) ∧
    parse_date ['2', '0', '2', '1', '0', '4', '3', '0'] =
      some (.ok ⟨2021, 4, 30⟩) := by
  refine ⟨?_, ?_, ?_, ?_, ?_⟩ <;> rfl

end GV100AD
